import Mathlib

/-!
Shallow embedding of the picoNES emulator core (6502 CPU, PPU, APU,
cartridge loader and mappers) together with proofs about its behaviour.

Machine integers are represented as `Nat` with explicit masking
(`% 256`, `% 65536`, `&&& mask`) exactly where the Rust source wraps or
masks.  Fallible operations (Rust indexing that can panic) return
`Option`.  Each definition is translated from the corresponding Rust
function in `src/`; definitions whose Rust source is not part of the
provided tree are marked `Modelled from the spec:`.
-/

namespace PicoNES

/-! ### CPU: status flag bits (src/cpu.rs, `StatusFlags`) -/

def flagCarry : Nat := 0x01
def flagZero : Nat := 0x02
def flagInterruptDisable : Nat := 0x04
def flagDecimal : Nat := 0x08
def flagBreak : Nat := 0x10
def flagUnused : Nat := 0x20
def flagOverflow : Nat := 0x40
def flagNegative : Nat := 0x80

/-- `status.contains(flag)` for a one-bit flag mask. -/
def hasFlag (status flag : Nat) : Bool := status &&& flag ≠ 0

/-! ### CPU: relative addressing and branch instructions (src/cpu.rs) -/

/-- `get_operand_address` in `AddressingMode::Relative`
(src/cpu.rs:1285-1289): the operand byte at `pc` is sign-extended,
`next = pc.wrapping_add(1)` and the target is `(next + offset) as u16`. -/
def relativeAddr (pc offsetByte : Nat) : Nat :=
  let signed : Int := if offsetByte < 128 then (offsetByte : Int) else (offsetByte : Int) - 256
  let next : Int := ((pc + 1) % 65536 : Nat)
  ((next + signed).emod 65536).toNat

/-- Result of executing a branch handler: the new program counter and the
`extra_cycles` the handler accumulated. -/
structure BranchResult where
  pc : Nat
  extraCycles : Nat
  deriving DecidableEq, Repr

/-- Common body of the eight branch handlers `bcc`/`bcs`/`beq`/`bmi`/`bne`/
`bpl`/`bvc`/`bvs` (src/cpu.rs:487-617).  `pc` is the program counter at
handler entry (pointing at the operand byte), `offsetByte` the operand.
The source computes `base_pc = pc + 1`, takes the branch when `cond`
holds, adds one extra cycle, and adds TWO further extra cycles when
`base_pc` and the target lie on different pages. -/
def branchExec (cond : Bool) (pc offsetByte : Nat) : BranchResult :=
  let basePc := pc + 1
  let addr := relativeAddr pc offsetByte
  if cond then
    { pc := addr
      extraCycles := 1 + (if basePc &&& 0xFF00 ≠ addr &&& 0xFF00 then 2 else 0) }
  else
    { pc := pc, extraCycles := 0 }

/-- `bcc` (src/cpu.rs:487): branch when carry clear. -/
def bcc (status pc offsetByte : Nat) : BranchResult :=
  branchExec (!hasFlag status flagCarry) pc offsetByte

/-- `bcs` (src/cpu.rs:499): branch when carry set. -/
def bcs (status pc offsetByte : Nat) : BranchResult :=
  branchExec (hasFlag status flagCarry) pc offsetByte

/-- `beq` (src/cpu.rs:511): branch when zero set. -/
def beq (status pc offsetByte : Nat) : BranchResult :=
  branchExec (hasFlag status flagZero) pc offsetByte

/-- `bmi` (src/cpu.rs:548): branch when negative set. -/
def bmi (status pc offsetByte : Nat) : BranchResult :=
  branchExec (hasFlag status flagNegative) pc offsetByte

/-- `bne` (src/cpu.rs:560): branch when zero clear. -/
def bne (status pc offsetByte : Nat) : BranchResult :=
  branchExec (!hasFlag status flagZero) pc offsetByte

/-- `bpl` (src/cpu.rs:572): branch when negative clear. -/
def bpl (status pc offsetByte : Nat) : BranchResult :=
  branchExec (!hasFlag status flagNegative) pc offsetByte

/-- `bvc` (src/cpu.rs:595): branch when overflow clear. -/
def bvc (status pc offsetByte : Nat) : BranchResult :=
  branchExec (!hasFlag status flagOverflow) pc offsetByte

/-- `bvs` (src/cpu.rs:607): branch when overflow set. -/
def bvs (status pc offsetByte : Nat) : BranchResult :=
  branchExec (hasFlag status flagOverflow) pc offsetByte

/-! ### CPU: stack, interrupts and BRK (src/cpu.rs) -/

/-- CPU state for the stack/interrupt fragment: registers plus a 64 KiB
memory modelled as a function. -/
structure CpuState where
  pc : Nat
  sp : Nat
  status : Nat
  mem : Nat → Nat

/-- Single-byte memory write. -/
def memWrite (m : Nat → Nat) (addr v : Nat) : Nat → Nat :=
  fun a => if a = addr then v else m a

/-- `read_u16` (src/memory.rs): little-endian pair of reads. -/
def memReadU16 (m : Nat → Nat) (addr : Nat) : Nat :=
  ((m (addr + 1)) <<< 8) ||| m addr

/-- `push_stack` (src/cpu.rs:1349): write to `0x0100 + sp`, then
`sp = sp.wrapping_sub(1)`. -/
def pushStack (s : CpuState) (v : Nat) : CpuState :=
  { s with
    mem := memWrite s.mem (0x0100 + s.sp) v
    sp := (s.sp + 255) % 256 }

/-- `push_stack_u16` (src/cpu.rs:1361): push high byte then low byte. -/
def pushStackU16 (s : CpuState) (v : Nat) : CpuState :=
  pushStack (pushStack s ((v >>> 8) &&& 0xFF)) (v &&& 0xFF)

/-- The `b_flag_mask` declared for the BRK interrupt descriptor
(src/cpu.rs:73-78); note that `interrupt` below never applies it. -/
def interruptBrkBFlagMask : Nat := 0b00110000

/-- `interrupt` (src/cpu.rs:1373-1384): push PC, push the status byte with
BREAK_COMMAND removed and UNUSED inserted (the descriptor's `b_flag_mask`
is not consulted), set INTERRUPT_DISABLE, and load PC from the vector. -/
def interruptExec (s : CpuState) (vectorAddr : Nat) : CpuState :=
  let s1 := pushStackU16 s s.pc
  let flag := (s1.status &&& (0xFF - flagBreak)) ||| flagUnused
  let s2 := pushStack s1 flag
  let s3 := { s2 with status := s2.status ||| flagInterruptDisable }
  { s3 with pc := memReadU16 s3.mem vectorAddr }

/-- `brk` (src/cpu.rs:584-593): increment PC once more (it already points
one past the opcode at handler entry, so the pushed value is opcode+2),
then run the BRK interrupt sequence — but only when INTERRUPT_DISABLE is
clear. -/
def brkExec (s : CpuState) : CpuState :=
  let s1 := { s with pc := s.pc + 1 }
  if !hasFlag s1.status flagInterruptDisable then
    interruptExec s1 0xFFFE
  else
    s1

/-! ### CPU: ADC / SBC value computation (src/cpu.rs:428-448, 959-981) -/

/-- Accumulator and the C, Z, N, V flags produced by an arithmetic step. -/
structure ArithResult where
  a : Nat
  c : Bool
  z : Bool
  n : Bool
  v : Bool
  deriving DecidableEq, Repr

/-- `adc_value` (src/cpu.rs:428-448): `sum = a + value + carry`, carry out
when `sum > 0xFF`, overflow from `(a ^ result) & (value ^ result) & 0x80`,
Z/N from the result byte. -/
def adcValue (a : Nat) (carry : Bool) (value : Nat) : ArithResult :=
  let sum := a + value + (if carry then 1 else 0)
  let c := decide (sum > 0xFF)
  let result := sum % 256
  let v := decide ((a ^^^ result) &&& (value ^^^ result) &&& 0x80 ≠ 0)
  { a := result
    c := c
    z := decide (result = 0)
    n := decide (result &&& 0x80 ≠ 0)
    v := v }

/-- `sbc_value` (src/cpu.rs:959-981): `diff = a - value - (1 - carry)` as a
signed quantity, carry out when `diff >= 0`, result is `diff as u8`
(two's-complement truncation), overflow from
`(a ^ result) & (!value ^ result) & 0x80` where `!value` is the bitwise
complement `value ^ 0xFF`. -/
def sbcValue (a : Nat) (carry : Bool) (value : Nat) : ArithResult :=
  let borrow : Int := if carry then 0 else 1
  let diff : Int := (a : Int) - (value : Int) - borrow
  let c := decide (diff ≥ 0)
  let result := (diff % 256).toNat
  let v := decide ((a ^^^ result) &&& ((value ^^^ 0xFF) ^^^ result) &&& 0x80 ≠ 0)
  { a := result
    c := c
    z := decide (result = 0)
    n := decide (result &&& 0x80 ≠ 0)
    v := v }

/-! ### PPU: loopy scroll register (src/ppu/registers/scroll.rs) -/

/-- The internal "loopy" scroll state: current VRAM address `v`, temp
address `t`, fine-x `x` and write toggle `w`. -/
structure ScrollRegister where
  v : Nat
  t : Nat
  x : Nat
  w : Bool
  deriving DecidableEq, Repr

/-- `ScrollRegister::new` (src/ppu/registers/scroll.rs:10). -/
def scrollNew : ScrollRegister := { v := 0, t := 0, x := 0, w := false }

/-- `update_ctrl` (src/ppu/registers/scroll.rs:19): copy the two nametable
bits of the written PPUCTRL value into bits 10-11 of `t`, then mask `t`
to 14 bits.  `0xF3FF` is the u16 complement of `0x0C00`. -/
def scrollUpdateCtrl (r : ScrollRegister) (value : Nat) : ScrollRegister :=
  let nt := value &&& 0b11
  let t1 := (r.t &&& 0xF3FF) ||| (nt <<< 10)
  { r with t := t1 &&& 0x3FFF }

/-- `write` (src/ppu/registers/scroll.rs:25): $2005 write.  First write sets
coarse/fine X, second sets coarse/fine Y; returns whether the two-write
sequence completed.  `0xFFE0` is the u16 complement of `0x001F`, `0x8C1F`
of `0x03E0 | 0x7000`. -/
def scrollWrite (r : ScrollRegister) (value : Nat) : ScrollRegister × Bool :=
  if !r.w then
    let coarseX := (value >>> 3) &&& 0x1F
    let t1 := (r.t &&& 0xFFE0) ||| coarseX
    ({ r with t := t1 &&& 0x3FFF, x := value &&& 0x07, w := true }, false)
  else
    let coarseY := (value >>> 3) &&& 0x1F
    let fineY := value &&& 0x07
    let t1 := r.t &&& 0x8C1F
    let t2 := t1 ||| (coarseY <<< 5) ||| (fineY <<< 12)
    ({ r with t := t2 &&& 0x3FFF, w := false }, true)

/-- `write_ppu_addr` (src/ppu/registers/scroll.rs:52): $2006 write.  First
write sets the high byte of `t` masked to 6 bits, second sets the low byte
and copies `t` into `v`. -/
def scrollWritePpuAddr (r : ScrollRegister) (value : Nat) : ScrollRegister × Bool :=
  if !r.w then
    let high := value &&& 0x3F
    let t1 := (r.t &&& 0x00FF) ||| (high <<< 8)
    ({ r with t := t1 &&& 0x3FFF, w := true }, false)
  else
    let t1 := (r.t &&& 0xFF00) ||| (value % 256)
    let t2 := t1 &&& 0x3FFF
    ({ r with t := t2, v := t2, w := false }, true)

/-- `increment` (src/ppu/registers/scroll.rs:68): $2007 VRAM-address step,
`v = v.wrapping_add(step) & 0x3FFF`. -/
def scrollIncrement (r : ScrollRegister) (step : Nat) : ScrollRegister :=
  { r with v := ((r.v + step) % 65536) &&& 0x3FFF }

/-- `base_nametable` (src/ppu/registers/scroll.rs:87). -/
def scrollBaseNametable (r : ScrollRegister) : Nat := (r.t >>> 10) &&& 0x03

/-- `reset_latch` (src/ppu/registers/scroll.rs:91). -/
def scrollResetLatch (r : ScrollRegister) : ScrollRegister := { r with w := false }

/-- `increment_x` (src/ppu/registers/scroll.rs:99): coarse-x wraps at 31
and toggles the horizontal nametable bit, otherwise `v += 1`.  `0xFFE0` is
the u16 complement of `0x001F`. -/
def scrollIncrementX (r : ScrollRegister) : ScrollRegister :=
  if r.v &&& 0x001F = 31 then
    { r with v := (r.v &&& 0xFFE0) ^^^ 0x0400 }
  else
    { r with v := r.v + 1 }

/-- `increment_y` (src/ppu/registers/scroll.rs:108): fine-y increments up
to 7, then coarse-y advances with wraparound at 29 (toggling the vertical
nametable bit) or at 31.  `0x8FFF` is the u16 complement of `0x7000`,
`0xFC1F` of `0x03E0`. -/
def scrollIncrementY (r : ScrollRegister) : ScrollRegister :=
  if r.v &&& 0x7000 ≠ 0x7000 then
    { r with v := r.v + 0x1000 }
  else
    let v1 := r.v &&& 0x8FFF
    let y := (v1 &&& 0x03E0) >>> 5
    let yv : Nat × Nat :=
      if y = 29 then (0, v1 ^^^ 0x0800)
      else if y = 31 then (0, v1)
      else (y + 1, v1)
    { r with v := (yv.2 &&& 0xFC1F) ||| (yv.1 <<< 5) }

/-- `copy_horizontal_bits` (src/ppu/registers/scroll.rs:126).  `0xFBE0` is
the u16 complement of `0x041F`. -/
def scrollCopyHorizontalBits (r : ScrollRegister) : ScrollRegister :=
  { r with v := (r.v &&& 0xFBE0) ||| (r.t &&& 0x041F) }

/-- `copy_vertical_bits` (src/ppu/registers/scroll.rs:130).  `0x841F` is
the u16 complement of `0x7BE0`. -/
def scrollCopyVerticalBits (r : ScrollRegister) : ScrollRegister :=
  { r with v := (r.v &&& 0x841F) ||| (r.t &&& 0x7BE0) }

/-- One scroll-register operation, covering every mutation of `v`/`t` in
src/ppu/registers/scroll.rs. -/
inductive ScrollOp where
  | updateCtrl (value : Nat)
  | write (value : Nat)
  | writePpuAddr (value : Nat)
  | increment (step : Nat)
  | resetLatch
  | incrementX
  | incrementY
  | copyHorizontalBits
  | copyVerticalBits

/-- Apply one scroll operation. -/
def applyScrollOp (r : ScrollRegister) : ScrollOp → ScrollRegister
  | .updateCtrl value => scrollUpdateCtrl r value
  | .write value => (scrollWrite r value).1
  | .writePpuAddr value => (scrollWritePpuAddr r value).1
  | .increment step => scrollIncrement r step
  | .resetLatch => scrollResetLatch r
  | .incrementX => scrollIncrementX r
  | .incrementY => scrollIncrementY r
  | .copyHorizontalBits => scrollCopyHorizontalBits r
  | .copyVerticalBits => scrollCopyVerticalBits r

/-- Apply a sequence of scroll operations. -/
def applyScrollOps (r : ScrollRegister) (ops : List ScrollOp) : ScrollRegister :=
  ops.foldl applyScrollOp r

/-- `v` and `t` fit in 15 bits. -/
def ScrollInv (r : ScrollRegister) : Prop := r.v < 0x8000 ∧ r.t < 0x8000

instance (r : ScrollRegister) : Decidable (ScrollInv r) := by
  unfold ScrollInv; infer_instance

/-! ### PPU: registers, NMI latching and tick (src/ppu/mod.rs)

The `ControlRegister`, `StatusRegister` and `MaskRegister` sources are not
part of the provided tree, so their bit accessors are modelled from the
spec; everything else below is translated from src/ppu/mod.rs. -/

/-- Modelled from the spec: `ControlRegister::generate_vblank_nmi` — the
missing src/ppu/registers/control.rs.  Per the spec, PPUCTRL's
`generate_nmi` bit decides NMI latching at vblank; it is the register's
top bit, and `ControlRegister::update` stores the written byte. -/
def ctrlGenerateVblankNmi (ctrl : Nat) : Bool := ctrl.testBit 7

/-- PPU state fragment covering NMI latching, sprite-0-hit and frame
timing.  The vblank and sprite-0-hit bits of `StatusRegister` and the
`show_sprites`/`show_background` bits of `MaskRegister` (missing
src/ppu/registers/{status,mask}.rs) are modelled from the spec as Boolean
fields; OAM is represented by the two bytes sprite-0 logic reads
(`oam_data[0]` and `oam_data[3]`).  Scroll-segment bookkeeping
(`scroll_segments`, `pending_scroll_descriptor`) is pure renderer metadata
and is not modelled. -/
structure PpuState where
  ctrl : Nat
  maskShowSprites : Bool
  maskShowBackground : Bool
  statusVblank : Bool
  statusSpriteZero : Bool
  scroll : ScrollRegister
  oam0 : Nat
  oam3 : Nat
  nmi : Option Nat
  scanline : Nat
  cycles : Nat

/-- `write_to_ctrl` (src/ppu/mod.rs:215-225): store the byte, mirror the
nametable bits into `t`, and latch an NMI exactly when the NMI-enable bit
goes 0 → 1 while the vblank status flag is set. -/
def writeToCtrl (s : PpuState) (value : Nat) : PpuState :=
  let before := ctrlGenerateVblankNmi s.ctrl
  let ctrl' := value % 256
  let scroll' := scrollUpdateCtrl s.scroll value
  let nmi' :=
    if !before && ctrlGenerateVblankNmi ctrl' && s.statusVblank then some 1 else s.nmi
  { s with ctrl := ctrl', scroll := scroll', nmi := nmi' }

/-- `poll_nmi_interrupt` (src/ppu/mod.rs:348): `take` the pending NMI. -/
def pollNmiInterrupt (s : PpuState) : Option Nat × PpuState :=
  (s.nmi, { s with nmi := none })

/-- `is_sprite_zero_hit` (src/ppu/mod.rs:352-356): sprite 0's Y equals the
current scanline, its X is at most the current dot counter, and sprite
rendering is enabled.  Background enable, pixel opacity, left-edge
clipping and x=255 are not consulted. -/
def isSpriteZeroHit (s : PpuState) (cycle : Nat) : Bool :=
  decide (s.oam0 = s.scanline) && decide (s.oam3 ≤ cycle) && s.maskShowSprites

/-- `tick` (src/ppu/mod.rs:318-346): accumulate dots; at 341 dots check the
sprite-0-hit condition and advance one scanline; scanline 241 raises
vblank (clearing sprite-0-hit) and latches an NMI when enabled; scanline
262 wraps the frame, clearing vblank, sprite-0-hit and the pending NMI.
Returns the new state and the frame-complete flag. -/
def ppuTick (s : PpuState) (cycles : Nat) : PpuState × Bool :=
  let c := s.cycles + cycles
  if c ≥ 341 then
    let hit := isSpriteZeroHit s c
    let s1 := { s with
      statusSpriteZero := s.statusSpriteZero || hit
      cycles := c - 341
      scanline := s.scanline + 1 }
    let s2 :=
      if s1.scanline = 241 then
        { s1 with
          statusVblank := true
          statusSpriteZero := false
          nmi := if ctrlGenerateVblankNmi s1.ctrl then some 1 else s1.nmi }
      else s1
    if s2.scanline ≥ 262 then
      ({ s2 with
          scanline := 0
          nmi := none
          statusSpriteZero := false
          statusVblank := false }, true)
    else
      (s2, false)
  else
    ({ s with cycles := c }, false)

/-! ### Cartridge loader (src/cart.rs) -/

/-- `Mirroring` (src/cart.rs:15). -/
inductive Mirroring where
  | vertical
  | horizontal
  | fourScreen
  | singleScreenLower
  | singleScreenUpper
  deriving DecidableEq, Repr

/-- `RomFormat` (src/cart.rs:24). -/
inductive RomFormat where
  | iNes
  | nes2
  deriving DecidableEq, Repr

/-- The mapper variant selected by `Cart::new` (src/cart.rs:147-154). -/
inductive MapperKind where
  | nrom
  | mmc1
  | uxrom
  | cnrom
  | mmc3
  deriving DecidableEq, Repr

/-- The parts of the assembled `Cart` relevant to loader behaviour
(`nes2_data` metadata is not modelled). -/
structure Cart where
  mapperKind : MapperKind
  prgRom : List Nat
  chrRom : List Nat
  screenMirroring : Mirroring
  format : RomFormat
  deriving DecidableEq, Repr

/-- `NES_TAG` (src/cart.rs:10). -/
def nesTag : List Nat := [0x4E, 0x45, 0x53, 0x1A]

/-- `calculate_nes2_prg_size` (src/cart.rs:40). -/
def calcNes2PrgSize (lsb msb : Nat) : Nat :=
  let msbNibble := (msb >>> 4) &&& 0x0F
  if msbNibble = 0x0F then
    let multiplier := ((msb &&& 0x03) * 2) + 1
    let exponent := (msb >>> 2) &&& 0x3F
    2 ^ exponent * multiplier
  else
    ((msbNibble <<< 8) ||| lsb) * 16384

/-- `calculate_nes2_chr_size` (src/cart.rs:53). -/
def calcNes2ChrSize (lsb msb : Nat) : Nat :=
  let msbNibble := msb &&& 0x0F
  if msbNibble = 0x0F then
    let multiplier := ((lsb &&& 0x03) * 2) + 1
    let exponent := (lsb >>> 2) &&& 0x3F
    2 ^ exponent * multiplier
  else
    ((msbNibble <<< 8) ||| lsb) * 8192

/-- `Cart::new` (src/cart.rs:82-162): header parse, mirroring and size
extraction, and mapper selection.  Byte accesses `raw[i]` are modelled
with a zero default and slices with `drop`/`take`; well-formed images
carry at least the 16 header bytes and full PRG/CHR payloads, making
these total readings agree with the Rust indexing. -/
def cartNew (raw : List Nat) : Except String Cart :=
  let byte := fun i => (raw.get? i).getD 0
  if raw.take 4 ≠ nesTag then
    .error "File is not in iNES file format"
  else
    let format := if byte 7 &&& 0x0C = 0x08 then RomFormat.nes2 else RomFormat.iNes
    let mapper := (byte 7 &&& 0xF0) ||| (byte 6 >>> 4)
    if format = RomFormat.iNes ∧ (byte 7 >>> 2) &&& 0b11 ≠ 0 then
      .error "Invalid iNES format version"
    else
      let fourScreen := byte 6 &&& 0b1000 ≠ 0
      let verticalMirroring := byte 6 &&& 0b1 ≠ 0
      let screenMirroring :=
        if fourScreen then Mirroring.fourScreen
        else if verticalMirroring then Mirroring.vertical
        else Mirroring.horizontal
      let sizes :=
        match format with
        | RomFormat.iNes => (byte 4 * 16384, byte 5 * 8192)
        | RomFormat.nes2 => (calcNes2PrgSize (byte 4) (byte 9), calcNes2ChrSize (byte 5) (byte 9))
      let skipTrainer := byte 6 &&& 0b100 ≠ 0
      let prgRomStart := 16 + if skipTrainer then 512 else 0
      let chrRomStart := prgRomStart + sizes.1
      let prgRom := (raw.drop prgRomStart).take sizes.1
      let chrRom := (raw.drop chrRomStart).take sizes.2
      let mk := fun kind =>
        Except.ok { mapperKind := kind, prgRom := prgRom, chrRom := chrRom,
                    screenMirroring := screenMirroring, format := format }
      if mapper = 0 then mk MapperKind.nrom
      else if mapper = 1 then mk MapperKind.mmc1
      else if mapper = 2 then mk MapperKind.uxrom
      else if mapper = 3 then mk MapperKind.cnrom
      else if mapper = 4 then mk MapperKind.mmc3
      else .error ("Mapper " ++ toString mapper ++ " not supported")

/-! ### Mappers (src/mapper/*.rs)

Reads and writes that perform Rust `Vec` indexing (which panics when out
of bounds) return `Option`, with `none` standing for the panic; guarded
lookups (`.get(..).unwrap_or(..)`) stay total.  The ignored `ChrSource`
parameter of `read_chr` is omitted. -/

/-- `NromMapper` (src/mapper/nrom.rs). -/
structure NromMapper where
  prgRom : List Nat
  chr : List Nat
  chrIsRam : Bool
  mirroring : Mirroring
  deriving DecidableEq, Repr

/-- `NromMapper::new` (src/mapper/nrom.rs:12). -/
def nromNew (prgRom chrRom : List Nat) (mirroring : Mirroring) : NromMapper :=
  let chrIsRam := chrRom.isEmpty
  { prgRom := prgRom
    chr := if chrIsRam then List.replicate 0x2000 0 else chrRom
    chrIsRam := chrIsRam
    mirroring := mirroring }

/-- `NromMapper::read_prg` (src/mapper/nrom.rs:30-46): mirrors a 16 KiB
PRG across both halves, otherwise indexes `prg_rom[offset]` directly. -/
def nromReadPrg (m : NromMapper) (addr : Nat) : Option Nat :=
  if ¬(0x8000 ≤ addr ∧ addr ≤ 0xFFFF) then some 0
  else if m.prgRom.isEmpty then some 0
  else
    let offset := addr - 0x8000
    let offset := if m.prgRom.length = 0x4000 then offset % 0x4000 else offset
    m.prgRom.get? offset

/-- `UxromMapper` (src/mapper/uxrom.rs). -/
structure UxromMapper where
  prgRom : List Nat
  chr : List Nat
  chrIsRam : Bool
  prgRam : List Nat
  bankSelect : Nat
  mirroring : Mirroring
  deriving DecidableEq, Repr

/-- `UxromMapper::new` (src/mapper/uxrom.rs:16). -/
def uxromNew (prgRom chrRom : List Nat) (mirroring : Mirroring) : UxromMapper :=
  let chrIsRam := chrRom.isEmpty
  { prgRom := prgRom
    chr := if chrIsRam then List.replicate 0x2000 0 else chrRom
    chrIsRam := chrIsRam
    prgRam := List.replicate 0x2000 0
    bankSelect := 0
    mirroring := mirroring }

/-- `prg_bank_count` (src/mapper/uxrom.rs:34). -/
def uxromPrgBankCount (m : UxromMapper) : Nat :=
  let count := m.prgRom.length / 0x4000
  if count = 0 then 1 else count

/-- `prg_bank_offset` (src/mapper/uxrom.rs:39). -/
def uxromPrgBankOffset (m : UxromMapper) (bank : Nat) : Nat :=
  (bank % uxromPrgBankCount m) * 0x4000

/-- `UxromMapper::read_prg` (src/mapper/uxrom.rs:46-70). -/
def uxromReadPrg (m : UxromMapper) (addr : Nat) : Option Nat :=
  if 0x6000 ≤ addr ∧ addr ≤ 0x7FFF then
    m.prgRam.get? (addr - 0x6000)
  else if 0x8000 ≤ addr ∧ addr ≤ 0xBFFF then
    if m.prgRom.isEmpty then some 0
    else
      let offset := uxromPrgBankOffset m m.bankSelect
      let index := offset + (addr - 0x8000)
      m.prgRom.get? (index % m.prgRom.length)
  else if 0xC000 ≤ addr ∧ addr ≤ 0xFFFF then
    if m.prgRom.isEmpty then some 0
    else
      let lastBank := uxromPrgBankCount m - 1
      let offset := uxromPrgBankOffset m lastBank
      let index := offset + (addr - 0xC000)
      m.prgRom.get? (index % m.prgRom.length)
  else some 0

/-- `UxromMapper::write_prg` (src/mapper/uxrom.rs:72-83); the bank count is
truncated to `u8` before the modulo. -/
def uxromWritePrg (m : UxromMapper) (addr data : Nat) : Option UxromMapper :=
  if 0x6000 ≤ addr ∧ addr ≤ 0x7FFF then
    if addr - 0x6000 < m.prgRam.length then
      some { m with prgRam := m.prgRam.set (addr - 0x6000) data }
    else none
  else if 0x8000 ≤ addr ∧ addr ≤ 0xFFFF then
    let count := uxromPrgBankCount m % 256
    some { m with bankSelect := if count = 0 then 0 else data % count }
  else some m

/-- `UxromMapper::read_chr` (src/mapper/uxrom.rs:85-91). -/
def uxromReadChr (m : UxromMapper) (addr : Nat) : Option Nat :=
  if m.chr.isEmpty then some 0
  else m.chr.get? (addr % m.chr.length)

/-- `UxromMapper::write_chr` (src/mapper/uxrom.rs:93-98). -/
def uxromWriteChr (m : UxromMapper) (addr data : Nat) : Option UxromMapper :=
  if m.chrIsRam && !m.chr.isEmpty then
    if addr % m.chr.length < m.chr.length then
      some { m with chr := m.chr.set (addr % m.chr.length) data }
    else none
  else some m

/-- `CnromMapper` (src/mapper/cnrom.rs). -/
structure CnromMapper where
  prgRom : List Nat
  chr : List Nat
  chrIsRam : Bool
  prgRam : List Nat
  chrBank : Nat
  mirroring : Mirroring
  deriving DecidableEq, Repr

/-- `CnromMapper::new` (src/mapper/cnrom.rs:16). -/
def cnromNew (prgRom chrRom : List Nat) (mirroring : Mirroring) : CnromMapper :=
  let chrIsRam := chrRom.isEmpty
  { prgRom := prgRom
    chr := if chrIsRam then List.replicate 0x2000 0 else chrRom
    chrIsRam := chrIsRam
    prgRam := List.replicate 0x2000 0
    chrBank := 0
    mirroring := mirroring }

/-- `chr_bank_count` (src/mapper/cnrom.rs:34). -/
def cnromChrBankCount (m : CnromMapper) : Nat :=
  let count := m.chr.length / 0x2000
  if count = 0 then 1 else count

/-- `CnromMapper::read_prg` (src/mapper/cnrom.rs:41-54). -/
def cnromReadPrg (m : CnromMapper) (addr : Nat) : Option Nat :=
  if 0x6000 ≤ addr ∧ addr ≤ 0x7FFF then
    m.prgRam.get? (addr - 0x6000)
  else if 0x8000 ≤ addr ∧ addr ≤ 0xFFFF then
    if m.prgRom.isEmpty then some 0
    else m.prgRom.get? ((addr - 0x8000) % m.prgRom.length)
  else some 0

/-- `CnromMapper::write_prg` (src/mapper/cnrom.rs:56-67); the bank count is
truncated to `u8` before the modulo. -/
def cnromWritePrg (m : CnromMapper) (addr data : Nat) : Option CnromMapper :=
  if 0x6000 ≤ addr ∧ addr ≤ 0x7FFF then
    if addr - 0x6000 < m.prgRam.length then
      some { m with prgRam := m.prgRam.set (addr - 0x6000) data }
    else none
  else if 0x8000 ≤ addr ∧ addr ≤ 0xFFFF then
    let count := cnromChrBankCount m % 256
    some { m with chrBank := if count = 0 then 0 else data % count }
  else some m

/-- `CnromMapper::read_chr` (src/mapper/cnrom.rs:69-78). -/
def cnromReadChr (m : CnromMapper) (addr : Nat) : Option Nat :=
  if m.chr.isEmpty then some 0
  else
    let bank := (m.chrBank % cnromChrBankCount m) * 0x2000
    let offset := addr &&& 0x1FFF
    let index := bank + offset
    m.chr.get? (index % m.chr.length)

/-- `CnromMapper::write_chr` (src/mapper/cnrom.rs:80-89). -/
def cnromWriteChr (m : CnromMapper) (addr data : Nat) : Option CnromMapper :=
  if m.chrIsRam && !m.chr.isEmpty then
    let bank := (m.chrBank % cnromChrBankCount m) * 0x2000
    let offset := addr &&& 0x1FFF
    let idx := (bank + offset) % m.chr.length
    if idx < m.chr.length then
      some { m with chr := m.chr.set idx data }
    else none
  else some m

/-- `PrgMode` of MMC1 (src/mapper/mmc1.rs:8). -/
inductive Mmc1PrgMode where
  | bank32kb
  | fixFirstPage
  | fixLastPage
  deriving DecidableEq, Repr

/-- `ChrMode` of MMC1 (src/mapper/mmc1.rs:16). -/
inductive Mmc1ChrMode where
  | bank8kb
  | bank4kb
  deriving DecidableEq, Repr

/-- `Mmc1Mapper` (src/mapper/mmc1.rs). -/
structure Mmc1Mapper where
  prgRom : List Nat
  chr : List Nat
  chrIsRam : Bool
  prgRam : List Nat
  prgMode : Mmc1PrgMode
  chrMode : Mmc1ChrMode
  prgSelect : Nat
  prg256kbBank : Nat
  prgLastBank : Nat
  chrSelect0 : Nat
  chrSelect1 : Nat
  lastWroteChrSelect1 : Bool
  shiftReg : Nat
  shiftWrites : Nat
  prgRamDisabled : Bool
  prgBank0 : Nat
  prgBank1 : Nat
  chrBank0 : Nat
  chrBank1 : Nat
  sramBank : Nat
  has512kbPrg : Bool
  mirroring : Mirroring
  deriving DecidableEq, Repr

/-- `prg_bank_count` (src/mapper/mmc1.rs:91). -/
def mmc1PrgBankCount (m : Mmc1Mapper) : Nat :=
  let count := m.prgRom.length / 0x4000
  if count = 0 then 1 else count

/-- `chr_bank_count` (src/mapper/mmc1.rs:96). -/
def mmc1ChrBankCount (m : Mmc1Mapper) : Nat :=
  let count := m.chr.length / 0x1000
  if count = 0 then 1 else count

/-- `update_prg_banks` (src/mapper/mmc1.rs:123-144). -/
def mmc1UpdatePrgBanks (m : Mmc1Mapper) : Mmc1Mapper :=
  if m.prgRom.isEmpty then { m with prgBank0 := 0, prgBank1 := 0 }
  else
    let prgCount := mmc1PrgBankCount m
    let banks : Nat × Nat :=
      match m.prgMode with
      | .bank32kb =>
          -- `self.prg_select & !1` clears the low bit
          let bank := 2 * (m.prgSelect / 2)
          (bank, bank + 1)
      | .fixFirstPage => (0, m.prgSelect)
      | .fixLastPage => (m.prgSelect, m.prgLastBank)
    let bank0 := (banks.1 ||| m.prg256kbBank) % prgCount
    let bank1 := (banks.2 ||| m.prg256kbBank) % prgCount
    { m with prgBank0 := bank0 * 0x4000, prgBank1 := bank1 * 0x4000 }

/-- `update_chr_banks` (src/mapper/mmc1.rs:146-164). -/
def mmc1UpdateChrBanks (m : Mmc1Mapper) : Mmc1Mapper :=
  if m.chr.isEmpty then { m with chrBank0 := 0, chrBank1 := 0 }
  else
    let chrCount := mmc1ChrBankCount m
    match m.chrMode with
    | .bank8kb =>
        -- `self.chr_select0 & !1` clears the low bit
        let base := (2 * (m.chrSelect0 / 2)) % chrCount
        { m with chrBank0 := base * 0x1000, chrBank1 := ((base + 1) % chrCount) * 0x1000 }
    | .bank4kb =>
        { m with
          chrBank0 := (m.chrSelect0 % chrCount) * 0x1000
          chrBank1 := (m.chrSelect1 % chrCount) * 0x1000 }

/-- `update_sram_bank` (src/mapper/mmc1.rs:166-175). -/
def mmc1UpdateSramBank (m : Mmc1Mapper) (sxromSelect : Nat) : Mmc1Mapper :=
  let banks := m.prgRam.length / 0x2000
  let bank :=
    if banks = 0 ∨ banks = 1 then 0
    else if banks = 2 then (sxromSelect >>> 3) &&& 0b01
    else if banks = 4 then (sxromSelect >>> 2) &&& 0b11
    else 0
  { m with sramBank := bank * 0x2000 }

/-- `update_all_banks` (src/mapper/mmc1.rs:177-192). -/
def mmc1UpdateAllBanks (m : Mmc1Mapper) : Mmc1Mapper :=
  let m := mmc1UpdateChrBanks m
  let sxromSelect :=
    if m.lastWroteChrSelect1 && decide (m.chrMode = Mmc1ChrMode.bank4kb) then m.chrSelect1
    else m.chrSelect0
  let m :=
    if m.has512kbPrg then
      mmc1UpdatePrgBanks { m with prg256kbBank := sxromSelect &&& 0b10000 }
    else m
  mmc1UpdateSramBank m sxromSelect

/-- `write_ctrl` (src/mapper/mmc1.rs:101-121). -/
def mmc1WriteCtrl (m : Mmc1Mapper) (val : Nat) : Mmc1Mapper :=
  let mirroring :=
    if val &&& 0b11 = 0 then Mirroring.singleScreenLower
    else if val &&& 0b11 = 1 then Mirroring.singleScreenUpper
    else if val &&& 0b11 = 2 then Mirroring.vertical
    else Mirroring.horizontal
  let prgMode :=
    if (val >>> 2) &&& 0b11 = 2 then Mmc1PrgMode.fixFirstPage
    else if (val >>> 2) &&& 0b11 = 3 then Mmc1PrgMode.fixLastPage
    else Mmc1PrgMode.bank32kb
  let m := mmc1UpdatePrgBanks { m with mirroring := mirroring, prgMode := prgMode }
  let chrMode := if val >>> 4 ≠ 0 then Mmc1ChrMode.bank4kb else Mmc1ChrMode.bank8kb
  mmc1UpdateAllBanks { m with chrMode := chrMode }

/-- `Mmc1Mapper::new` (src/mapper/mmc1.rs:51-89). -/
def mmc1New (prgRom chrRom : List Nat) (mirroring : Mirroring) : Mmc1Mapper :=
  let chrIsRam := chrRom.isEmpty
  let chr := if chrIsRam then List.replicate 0x2000 0 else chrRom
  let prgBankCount := max 1 (prgRom.length / 0x4000)
  let has512kbPrg := prgRom.length > 256 * 1024
  let prgLastBank := if has512kbPrg then prgBankCount / 2 - 1 else prgBankCount - 1
  let m : Mmc1Mapper :=
    { prgRom := prgRom
      chr := chr
      chrIsRam := chrIsRam
      prgRam := List.replicate 0x2000 0
      prgMode := .fixLastPage
      chrMode := .bank8kb
      prgSelect := 0
      prg256kbBank := 0
      prgLastBank := prgLastBank
      chrSelect0 := 0
      chrSelect1 := 0
      lastWroteChrSelect1 := false
      shiftReg := 0
      shiftWrites := 0
      prgRamDisabled := false
      prgBank0 := 0
      prgBank1 := 0
      chrBank0 := 0
      chrBank1 := 0
      sramBank := 0
      has512kbPrg := has512kbPrg
      mirroring := mirroring }
  mmc1UpdateAllBanks (mmc1UpdatePrgBanks m)

/-- `Mmc1Mapper::read_prg` (src/mapper/mmc1.rs:196-217): every lookup goes
through `.get(..).unwrap_or(..)`, so the read is total. -/
def mmc1ReadPrg (m : Mmc1Mapper) (addr : Nat) : Nat :=
  if 0x6000 ≤ addr ∧ addr ≤ 0x7FFF then
    if m.prgRamDisabled || m.prgRam.isEmpty then 0xFF
    else (m.prgRam.get? (m.sramBank + (addr - 0x6000))).getD 0xFF
  else if 0x8000 ≤ addr ∧ addr ≤ 0xFFFF then
    if m.prgRom.isEmpty then 0
    else
      let bank := if addr < 0xC000 then m.prgBank0 else m.prgBank1
      (m.prgRom.get? (bank + (addr &&& 0x3FFF))).getD 0
  else 0

/-- `Mmc1Mapper::write_prg` (src/mapper/mmc1.rs:219-267): serial shift
register, committing on the fifth write. -/
def mmc1WritePrg (m : Mmc1Mapper) (addr val : Nat) : Mmc1Mapper :=
  if 0x6000 ≤ addr ∧ addr ≤ 0x7FFF then
    if !m.prgRamDisabled && !m.prgRam.isEmpty then
      let index := m.sramBank + (addr - 0x6000)
      if index < m.prgRam.length then { m with prgRam := m.prgRam.set index val }
      else m
    else m
  else if 0x8000 ≤ addr ∧ addr ≤ 0xFFFF then
    let m :=
      if val &&& 0b10000000 ≠ 0 then
        mmc1UpdatePrgBanks { m with shiftReg := 0, shiftWrites := 0, prgMode := .fixLastPage }
      else if m.shiftWrites < 5 then
        { m with
          shiftReg := (m.shiftReg >>> 1) ||| ((val &&& 1) <<< 4)
          shiftWrites := m.shiftWrites + 1 }
      else m
    if m.shiftWrites ≥ 5 then
      let m :=
        if addr ≤ 0x9FFF then mmc1WriteCtrl m m.shiftReg
        else if addr ≤ 0xBFFF then
          mmc1UpdateAllBanks
            { m with chrSelect0 := m.shiftReg &&& 0b11111, lastWroteChrSelect1 := false }
        else if addr ≤ 0xDFFF then
          mmc1UpdateAllBanks
            { m with chrSelect1 := m.shiftReg &&& 0b11111, lastWroteChrSelect1 := true }
        else
          mmc1UpdatePrgBanks
            { m with
              prgRamDisabled := m.shiftReg &&& 0x10 ≠ 0
              prgSelect := m.shiftReg &&& 0x0F }
      { m with shiftWrites := 0, shiftReg := 0 }
    else m
  else m

/-- `Mmc1Mapper::read_chr` (src/mapper/mmc1.rs:269-277): guarded lookup,
total. -/
def mmc1ReadChr (m : Mmc1Mapper) (addr : Nat) : Nat :=
  if m.chr.isEmpty then 0
  else
    let bank := if addr < 0x1000 then m.chrBank0 else m.chrBank1
    (m.chr.get? (bank + (addr &&& 0x0FFF))).getD 0

/-- `Mmc1Mapper::write_chr` (src/mapper/mmc1.rs:279-287): bounds-checked,
total. -/
def mmc1WriteChr (m : Mmc1Mapper) (addr val : Nat) : Mmc1Mapper :=
  if m.chrIsRam && !m.chr.isEmpty then
    let bank := if addr < 0x1000 then m.chrBank0 else m.chrBank1
    let offset := bank + (addr &&& 0x0FFF)
    if offset < m.chr.length then { m with chr := m.chr.set offset val }
    else m
  else m

/-- `PrgMode` of MMC3 (src/mapper/mmc3.rs:8). -/
inductive Mmc3PrgMode where
  | fixLastPages
  | fixFirstPages
  deriving DecidableEq, Repr

/-- `ChrMode` of MMC3 (src/mapper/mmc3.rs:15). -/
inductive Mmc3ChrMode where
  | biggerFirst
  | biggerLast
  deriving DecidableEq, Repr

/-- `Mmc3Mapper` (src/mapper/mmc3.rs); the `prg_banks`/`chr_banks` arrays
are modelled as functions from slot indices. -/
structure Mmc3Mapper where
  prgRom : List Nat
  chr : List Nat
  chrIsRam : Bool
  prgRam : List Nat
  regSelect : Nat
  prgMode : Mmc3PrgMode
  chrMode : Mmc3ChrMode
  prgBanks : Fin 4 → Nat
  chrBanks : Fin 8 → Nat
  mirroring : Mirroring
  mirroringLocked : Bool
  sramReadEnabled : Bool
  sramWriteEnabled : Bool
  irqLatch : Nat
  irqCount : Nat
  irqReload : Bool
  irqEnabled : Bool
  irqPending : Bool

/-- `prg_bank_count` (src/mapper/mmc3.rs:79). -/
def mmc3PrgBankCount (m : Mmc3Mapper) : Nat :=
  let count := m.prgRom.length / 0x2000
  if count = 0 then 1 else count

/-- `chr_bank_count` (src/mapper/mmc3.rs:84). -/
def mmc3ChrBankCount (m : Mmc3Mapper) : Nat :=
  let count := m.chr.length / 0x0400
  if count = 0 then 1 else count

/-- Pointwise update of a bank table. -/
def setBank {n : Nat} (f : Fin n → Nat) (i : Fin n) (v : Nat) : Fin n → Nat :=
  fun j => if j = i then v else f j

/-- Exchange two entries of a bank table (`Vec::swap`). -/
def swapBanks {n : Nat} (f : Fin n → Nat) (i j : Fin n) : Fin n → Nat :=
  fun k => if k = i then f j else if k = j then f i else f k

/-- `set_prg_page` (src/mapper/mmc3.rs:89-97). -/
def mmc3SetPrgPage (m : Mmc3Mapper) (slot : Fin 4) (bankIndex : Nat) : Mmc3Mapper :=
  if m.prgRom.isEmpty then { m with prgBanks := setBank m.prgBanks slot 0 }
  else
    let index := bankIndex % mmc3PrgBankCount m
    { m with prgBanks := setBank m.prgBanks slot (index * 0x2000) }

/-- `chr_bank_address` (src/mapper/mmc3.rs:99-112); `index &= !1` for 2 KiB
banks clears the low bit, and `base & !(bank_size - 1)` aligns down to the
bank size. -/
def mmc3ChrBankAddress (m : Mmc3Mapper) (value bankSize : Nat) : Nat :=
  if m.chr.isEmpty then 0
  else
    let index := if bankSize = 0x0800 then 2 * (value / 2) else value
    let index := index % mmc3ChrBankCount m
    let base := (index * 0x0400) % m.chr.length
    bankSize * (base / bankSize)

/-- `set_chr_pair` (src/mapper/mmc3.rs:114-124). -/
def mmc3SetChrPair (m : Mmc3Mapper) (slot : Fin 8) (slot1 : Fin 8) (value : Nat) : Mmc3Mapper :=
  if m.chr.isEmpty then
    { m with chrBanks := setBank (setBank m.chrBanks slot 0) slot1 0 }
  else
    let base := mmc3ChrBankAddress m value 0x0800
    { m with
      chrBanks := setBank (setBank m.chrBanks slot base) slot1 ((base + 0x0400) % m.chr.length) }

/-- `set_chr_single` (src/mapper/mmc3.rs:126-133). -/
def mmc3SetChrSingle (m : Mmc3Mapper) (slot : Fin 8) (value : Nat) : Mmc3Mapper :=
  if m.chr.isEmpty then { m with chrBanks := setBank m.chrBanks slot 0 }
  else { m with chrBanks := setBank m.chrBanks slot (mmc3ChrBankAddress m value 0x0400) }

/-- `init_prg_banks` (src/mapper/mmc3.rs:135-149). -/
def mmc3InitPrgBanks (m : Mmc3Mapper) : Mmc3Mapper :=
  if m.prgRom.isEmpty then { m with prgBanks := fun _ => 0 }
  else
    let count := mmc3PrgBankCount m
    let lastBank := count - 1
    let secondLast := if count ≥ 2 then count - 2 else lastBank
    let m := mmc3SetPrgPage m 0 0
    let m := mmc3SetPrgPage m 1 1
    let m := mmc3SetPrgPage m 2 secondLast
    mmc3SetPrgPage m 3 lastBank

/-- `init_chr_banks` (src/mapper/mmc3.rs:151-160). -/
def mmc3InitChrBanks (m : Mmc3Mapper) : Mmc3Mapper :=
  if m.chr.isEmpty then { m with chrBanks := fun _ => 0 }
  else
    let m := mmc3SetChrSingle m 0 0
    let m := mmc3SetChrSingle m 1 1
    let m := mmc3SetChrSingle m 2 2
    let m := mmc3SetChrSingle m 3 3
    let m := mmc3SetChrSingle m 4 4
    let m := mmc3SetChrSingle m 5 5
    let m := mmc3SetChrSingle m 6 6
    mmc3SetChrSingle m 7 7

/-- `Mmc3Mapper::new` (src/mapper/mmc3.rs:49-77). -/
def mmc3New (prgRom chrRom : List Nat) (mirroring : Mirroring) : Mmc3Mapper :=
  let chrIsRam := chrRom.isEmpty
  let m : Mmc3Mapper :=
    { prgRom := prgRom
      chr := if chrIsRam then List.replicate 0x2000 0 else chrRom
      chrIsRam := chrIsRam
      prgRam := List.replicate 0x2000 0
      regSelect := 0
      prgMode := .fixLastPages
      chrMode := .biggerFirst
      prgBanks := fun _ => 0
      chrBanks := fun _ => 0
      mirroring := mirroring
      mirroringLocked := mirroring = Mirroring.fourScreen
      sramReadEnabled := false
      sramWriteEnabled := false
      irqLatch := 0
      irqCount := 0
      irqReload := false
      irqEnabled := false
      irqPending := false }
  mmc3InitChrBanks (mmc3InitPrgBanks m)

/-- `prg_addr` (src/mapper/mmc3.rs:162-178): slot by address quarter, bank
base reduced modulo the PRG length, plus the 8 KiB offset. -/
def mmc3PrgAddr (m : Mmc3Mapper) (addr : Nat) : Option Nat :=
  if m.prgRom.isEmpty then none
  else
    let slot : Option (Fin 4) :=
      if 0x8000 ≤ addr ∧ addr ≤ 0x9FFF then some 0
      else if 0xA000 ≤ addr ∧ addr ≤ 0xBFFF then some 1
      else if 0xC000 ≤ addr ∧ addr ≤ 0xDFFF then some 2
      else if 0xE000 ≤ addr ∧ addr ≤ 0xFFFF then some 3
      else none
    match slot with
    | none => none
    | some s =>
        let base := m.prgBanks s % m.prgRom.length
        let offset := addr &&& 0x1FFF
        some ((base + offset) % m.prgRom.length)

/-- `chr_addr` (src/mapper/mmc3.rs:180-189). -/
def mmc3ChrAddr (m : Mmc3Mapper) (addr : Nat) : Nat :=
  if m.chr.isEmpty then addr &&& 0x1FFF
  else
    let slot : Fin 8 := ⟨min (addr / 0x0400) 7, by omega⟩
    let base := m.chrBanks slot % m.chr.length
    let offset := addr &&& 0x03FF
    (base + offset) % m.chr.length

/-- `write_bank_select` (src/mapper/mmc3.rs:191-218). -/
def mmc3WriteBankSelect (m : Mmc3Mapper) (data : Nat) : Mmc3Mapper :=
  let m := { m with regSelect := data &&& 0x07 }
  let newPrgMode := if data &&& 0x40 ≠ 0 then Mmc3PrgMode.fixFirstPages else .fixLastPages
  let m :=
    if newPrgMode ≠ m.prgMode then { m with prgBanks := swapBanks m.prgBanks 0 2 }
    else m
  let m := { m with prgMode := newPrgMode }
  let newChrMode := if data &&& 0x80 ≠ 0 then Mmc3ChrMode.biggerLast else .biggerFirst
  let m :=
    if newChrMode ≠ m.chrMode then
      { m with chrBanks :=
        swapBanks (swapBanks (swapBanks (swapBanks m.chrBanks 0 4) 1 5) 2 6) 3 7 }
    else m
  { m with chrMode := newChrMode }

/-- `update_prg_bank` (src/mapper/mmc3.rs:220-235). -/
def mmc3UpdatePrgBank (m : Mmc3Mapper) (target bank : Nat) : Mmc3Mapper :=
  let slot : Option (Fin 4) :=
    match m.prgMode with
    | .fixLastPages => if target = 6 then some 0 else if target = 7 then some 1 else none
    | .fixFirstPages => if target = 7 then some 1 else if target = 6 then some 2 else none
  match slot with
  | none => m
  | some s => mmc3SetPrgPage m s bank

/-- `update_chr_bank` (src/mapper/mmc3.rs:237-258). -/
def mmc3UpdateChrBank (m : Mmc3Mapper) (target bank : Nat) : Mmc3Mapper :=
  match m.chrMode with
  | .biggerFirst =>
      if target = 0 then mmc3SetChrPair m 0 1 bank
      else if target = 1 then mmc3SetChrPair m 2 3 bank
      else if target = 2 then mmc3SetChrSingle m 4 bank
      else if target = 3 then mmc3SetChrSingle m 5 bank
      else if target = 4 then mmc3SetChrSingle m 6 bank
      else if target = 5 then mmc3SetChrSingle m 7 bank
      else m
  | .biggerLast =>
      if target = 0 then mmc3SetChrPair m 4 5 bank
      else if target = 1 then mmc3SetChrPair m 6 7 bank
      else if target = 2 then mmc3SetChrSingle m 0 bank
      else if target = 3 then mmc3SetChrSingle m 1 bank
      else if target = 4 then mmc3SetChrSingle m 2 bank
      else if target = 5 then mmc3SetChrSingle m 3 bank
      else m

/-- `write_bank_data` (src/mapper/mmc3.rs:260-267); registers 0 and 1 clear
the low bit of the written value, 6 and 7 mask to 6 bits. -/
def mmc3WriteBankData (m : Mmc3Mapper) (data : Nat) : Mmc3Mapper :=
  if m.regSelect = 0 ∨ m.regSelect = 1 then
    mmc3UpdateChrBank m m.regSelect (2 * (data / 2))
  else if m.regSelect = 2 ∨ m.regSelect = 3 ∨ m.regSelect = 4 ∨ m.regSelect = 5 then
    mmc3UpdateChrBank m m.regSelect data
  else if m.regSelect = 6 ∨ m.regSelect = 7 then
    mmc3UpdatePrgBank m m.regSelect (data &&& 0b111111)
  else m

/-- `update_mirroring` (src/mapper/mmc3.rs:269-279). -/
def mmc3UpdateMirroring (m : Mmc3Mapper) (data : Nat) : Mmc3Mapper :=
  if m.mirroringLocked then m
  else
    { m with mirroring := if data &&& 1 = 0 then Mirroring.vertical else Mirroring.horizontal }

/-- `update_sram_control` (src/mapper/mmc3.rs:281-284). -/
def mmc3UpdateSramControl (m : Mmc3Mapper) (data : Nat) : Mmc3Mapper :=
  { m with
    sramWriteEnabled := data &&& 0b01000000 = 0
    sramReadEnabled := data &&& 0b10000000 ≠ 0 }

/-- `Mmc3Mapper::read_prg` (src/mapper/mmc3.rs:301-319). -/
def mmc3ReadPrg (m : Mmc3Mapper) (addr : Nat) : Option Nat :=
  if 0x6000 ≤ addr ∧ addr ≤ 0x7FFF then
    if m.sramReadEnabled then m.prgRam.get? (addr - 0x6000)
    else some 0xFF
  else if 0x8000 ≤ addr ∧ addr ≤ 0xFFFF then
    match mmc3PrgAddr m addr with
    | some index => m.prgRom.get? index
    | none => some 0
  else some 0

/-- `Mmc3Mapper::write_prg` (src/mapper/mmc3.rs:321-360). -/
def mmc3WritePrg (m : Mmc3Mapper) (addr data : Nat) : Option Mmc3Mapper :=
  if 0x6000 ≤ addr ∧ addr ≤ 0x7FFF then
    if m.sramWriteEnabled then
      if addr - 0x6000 < m.prgRam.length then
        some { m with prgRam := m.prgRam.set (addr - 0x6000) data }
      else none
    else some m
  else if 0x8000 ≤ addr ∧ addr ≤ 0x9FFF then
    some (if addr &&& 1 = 0 then mmc3WriteBankSelect m data else mmc3WriteBankData m data)
  else if 0xA000 ≤ addr ∧ addr ≤ 0xBFFF then
    some (if addr &&& 1 = 0 then mmc3UpdateMirroring m data else mmc3UpdateSramControl m data)
  else if 0xC000 ≤ addr ∧ addr ≤ 0xDFFF then
    some (if addr &&& 1 = 0 then { m with irqLatch := data } else { m with irqReload := true })
  else if 0xE000 ≤ addr ∧ addr ≤ 0xFFFF then
    some (if addr &&& 1 = 0 then { m with irqEnabled := false, irqPending := false }
          else { m with irqEnabled := true })
  else some m

/-- `Mmc3Mapper::read_chr` (src/mapper/mmc3.rs:362-369). -/
def mmc3ReadChr (m : Mmc3Mapper) (addr : Nat) : Option Nat :=
  if m.chr.isEmpty then some 0
  else m.chr.get? (mmc3ChrAddr m addr)

/-- `Mmc3Mapper::write_chr` (src/mapper/mmc3.rs:371-376). -/
def mmc3WriteChr (m : Mmc3Mapper) (addr data : Nat) : Option Mmc3Mapper :=
  if m.chrIsRam && !m.chr.isEmpty then
    let index := mmc3ChrAddr m addr
    if index < m.chr.length then some { m with chr := m.chr.set index data }
    else none
  else some m

/-- A mapper bus access: a PRG write or a CHR write. -/
inductive MapWrite where
  | prg (addr data : Nat)
  | chr (addr data : Nat)

/-- Apply one write to a UxROM mapper. -/
def uxromApplyWrite (m : UxromMapper) : MapWrite → Option UxromMapper
  | .prg addr data => uxromWritePrg m addr data
  | .chr addr data => uxromWriteChr m addr data

/-- Apply one write to a CNROM mapper. -/
def cnromApplyWrite (m : CnromMapper) : MapWrite → Option CnromMapper
  | .prg addr data => cnromWritePrg m addr data
  | .chr addr data => cnromWriteChr m addr data

/-- Apply one write to an MMC1 mapper. -/
def mmc1ApplyWrite (m : Mmc1Mapper) : MapWrite → Mmc1Mapper
  | .prg addr data => mmc1WritePrg m addr data
  | .chr addr data => mmc1WriteChr m addr data

/-- Apply one write to an MMC3 mapper. -/
def mmc3ApplyWrite (m : Mmc3Mapper) : MapWrite → Option Mmc3Mapper
  | .prg addr data => mmc3WritePrg m addr data
  | .chr addr data => mmc3WriteChr m addr data

/-- Apply a sequence of writes, propagating a panic as `none`. -/
def applyWrites {α : Type} (step : α → MapWrite → Option α) (m : α) :
    List MapWrite → Option α
  | [] => some m
  | w :: ws => (step m w).bind (fun m2 => applyWrites step m2 ws)

/-! ### APU (src/apu/mod.rs)

The channel struct declarations used by src/apu/mod.rs are not part of
the provided tree (the channel files present belong to a different
revision), so each channel is modelled as a record holding exactly the
fields src/apu/mod.rs reads and writes, matching the spec's data model;
channel fields not touched by the embedded operations are omitted. -/

/-- `LENGTH_TABLE` (src/apu/mod.rs:25). -/
def lengthTable : List Nat :=
  [10, 254, 20, 2, 40, 4, 80, 6, 160, 8, 60, 10, 14, 12, 26, 14,
   12, 16, 24, 18, 48, 20, 96, 22, 192, 24, 72, 26, 16, 28, 32, 30]

/-- `NOISE_PERIOD_TABLE` (src/apu/noise.rs:3). -/
def noisePeriodTable : List Nat :=
  [4, 8, 16, 32, 64, 96, 128, 160, 202, 254, 380, 508, 762, 1016, 2034, 4068]

/-- `DMC_RATE_TABLE` (src/apu/dmc.rs:3). -/
def dmcRateTable : List Nat :=
  [428, 380, 340, 320, 286, 254, 226, 214, 190, 160, 142, 128, 106, 85, 72, 54]

/-- The `duty_table` local of `write_register` (src/apu/mod.rs:132). -/
def dutyTable : List Nat := [0b10000000, 0b11000000, 0b11110000, 0b00111111]

/-- `LengthCounter` (src/apu/mod.rs:31). -/
structure LengthCounter where
  length : Nat
  haltFlag : Bool
  channelEnabled : Bool
  deriving DecidableEq, Repr

/-- `LengthCounter::new` (src/apu/mod.rs:38). -/
def lengthCounterNew : LengthCounter :=
  { length := 0, haltFlag := false, channelEnabled := false }

/-- `LengthCounter::set_length` (src/apu/mod.rs:52-57): when enabled, load
from the 32-entry table at `min index 31`. -/
def lengthCounterSetLength (lc : LengthCounter) (index : Nat) : LengthCounter :=
  if lc.channelEnabled then
    { lc with length := (lengthTable.get? (min index 31)).getD 0 }
  else lc

/-- Modelled from the spec: the envelope fields the register writes in
src/apu/mod.rs touch (loop flag, constant-volume flag as `enabled`'s
negation, volume register, start flag); the envelope struct source is
absent from the tree. -/
structure ApuEnvelope where
  looping : Bool
  enabled : Bool
  volumeRegister : Nat
  startFlag : Bool
  deriving DecidableEq, Repr

/-- Modelled from the spec: zero-initialised envelope. -/
def apuEnvelopeNew : ApuEnvelope :=
  { looping := false, enabled := true, volumeRegister := 0, startFlag := false }

/-- Pulse-channel fields used by src/apu/mod.rs. -/
structure PulseChannelState where
  duty : Nat
  lengthCounter : LengthCounter
  envelope : ApuEnvelope
  sweepEnabled : Bool
  sweepPeriod : Nat
  sweepNegate : Bool
  sweepShift : Nat
  sweepReload : Bool
  periodInitial : Nat
  periodCurrent : Nat
  sequenceCounter : Nat
  deriving DecidableEq, Repr

/-- Modelled from the spec: zero-initialised pulse channel. -/
def pulseChannelNew : PulseChannelState :=
  { duty := 0, lengthCounter := lengthCounterNew, envelope := apuEnvelopeNew,
    sweepEnabled := false, sweepPeriod := 0, sweepNegate := false, sweepShift := 0,
    sweepReload := false, periodInitial := 0, periodCurrent := 0, sequenceCounter := 0 }

/-- Triangle-channel fields used by src/apu/mod.rs. -/
structure TriangleChannelState where
  controlFlag : Bool
  lengthCounter : LengthCounter
  linearCounterInitial : Nat
  linearReloadFlag : Bool
  periodInitial : Nat
  periodCurrent : Nat
  deriving DecidableEq, Repr

/-- Modelled from the spec: zero-initialised triangle channel. -/
def triangleChannelNew : TriangleChannelState :=
  { controlFlag := false, lengthCounter := lengthCounterNew,
    linearCounterInitial := 0, linearReloadFlag := false,
    periodInitial := 0, periodCurrent := 0 }

/-- Noise-channel fields used by src/apu/mod.rs. -/
structure NoiseChannelState where
  mode : Nat
  lengthCounter : LengthCounter
  envelope : ApuEnvelope
  periodInitial : Nat
  periodCurrent : Nat
  deriving DecidableEq, Repr

/-- Modelled from the spec: zero-initialised noise channel. -/
def noiseChannelNew : NoiseChannelState :=
  { mode := 0, lengthCounter := lengthCounterNew, envelope := apuEnvelopeNew,
    periodInitial := 0, periodCurrent := 0 }

/-- DMC-channel fields used by src/apu/mod.rs. -/
structure DmcChannelState where
  looping : Bool
  interruptEnabled : Bool
  interruptFlag : Bool
  periodInitial : Nat
  periodCurrent : Nat
  outputLevel : Nat
  startingAddress : Nat
  currentAddress : Nat
  sampleLength : Nat
  bytesRemaining : Nat
  deriving DecidableEq, Repr

/-- Modelled from the spec: zero-initialised DMC channel. -/
def dmcChannelNew : DmcChannelState :=
  { looping := false, interruptEnabled := false, interruptFlag := false,
    periodInitial := 0, periodCurrent := 0, outputLevel := 0,
    startingAddress := 0, currentAddress := 0, sampleLength := 0, bytesRemaining := 0 }

/-- The APU state fragment relevant to register writes, $4015 reads and
the frame sequencer (src/apu/mod.rs:60-92); the audio-output and mixing
state (sample pacing, float tables, DC filter, buffer) is not modelled. -/
structure ApuState where
  currentCycle : Nat
  frameSequencerMode : Nat
  frameSequencer : Nat
  frameResetDelay : Nat
  quarterFrameCounter : Nat
  halfFrameCounter : Nat
  frameInterrupt : Bool
  disableInterrupt : Bool
  pulse1 : PulseChannelState
  pulse2 : PulseChannelState
  triangle : TriangleChannelState
  noise : NoiseChannelState
  dmc : DmcChannelState

/-- `APU::new` (src/apu/mod.rs:95-124): frame sequencer in 4-step mode at
cycle 0 with interrupts enabled and no pending IRQ. -/
def apuNew : ApuState :=
  { currentCycle := 0
    frameSequencerMode := 0
    frameSequencer := 0
    frameResetDelay := 0
    quarterFrameCounter := 0
    halfFrameCounter := 0
    frameInterrupt := false
    disableInterrupt := false
    pulse1 := pulseChannelNew
    pulse2 := pulseChannelNew
    triangle := triangleChannelNew
    noise := noiseChannelNew
    dmc := dmcChannelNew }

/-- The $4000/$4004 arm of `write_register` (src/apu/mod.rs:134-144 and
167-177), acting on the addressed pulse channel. -/
def writePulseCtrl (p : PulseChannelState) (value : Nat) : PulseChannelState :=
  let dutyIndex := (value &&& 0b11000000) >>> 6
  let lengthDisable := value &&& 0b00100000 ≠ 0
  let constantVolume := value &&& 0b00010000 ≠ 0
  { p with
    duty := (dutyTable.get? dutyIndex).getD 0
    lengthCounter := { p.lengthCounter with haltFlag := lengthDisable }
    envelope :=
      { p.envelope with
        looping := lengthDisable
        enabled := !constantVolume
        volumeRegister := value &&& 0b00001111 } }

/-- The $4001/$4005 arm of `write_register` (src/apu/mod.rs:145-151 and
178-184). -/
def writePulseSweep (p : PulseChannelState) (value : Nat) : PulseChannelState :=
  { p with
    sweepEnabled := value &&& 0b10000000 ≠ 0
    sweepPeriod := (value &&& 0b01110000) >>> 4
    sweepNegate := value &&& 0b00001000 ≠ 0
    sweepShift := value &&& 0b00000111
    sweepReload := true }

/-- The $4002/$4006 arm of `write_register` (src/apu/mod.rs:152-156 and
185-189). -/
def writePulsePeriodLow (p : PulseChannelState) (value : Nat) : PulseChannelState :=
  let periodInitial := (p.periodInitial &&& 0xFF00) ||| (value % 256)
  { p with periodInitial := periodInitial, periodCurrent := periodInitial }

/-- The $4003/$4007 arm of `write_register` (src/apu/mod.rs:157-166 and
190-199). -/
def writePulsePeriodHigh (p : PulseChannelState) (value : Nat) : PulseChannelState :=
  let periodHigh := (value &&& 0b00000111) <<< 8
  let lengthIndex := (value &&& 0b11111000) >>> 3
  let periodInitial := (p.periodInitial &&& 0x00FF) ||| periodHigh
  { p with
    periodInitial := periodInitial
    periodCurrent := periodInitial
    lengthCounter := lengthCounterSetLength p.lengthCounter lengthIndex
    sequenceCounter := 0
    envelope := { p.envelope with startFlag := true } }

/-- The $4008 arm of `write_register` (src/apu/mod.rs:200-204). -/
def writeTriangleCtrl (t : TriangleChannelState) (value : Nat) : TriangleChannelState :=
  let controlFlag := value &&& 0b10000000 ≠ 0
  { t with
    controlFlag := controlFlag
    lengthCounter := { t.lengthCounter with haltFlag := controlFlag }
    linearCounterInitial := value &&& 0b01111111 }

/-- The $400A arm of `write_register` (src/apu/mod.rs:205-209). -/
def writeTrianglePeriodLow (t : TriangleChannelState) (value : Nat) : TriangleChannelState :=
  let periodInitial := (t.periodInitial &&& 0xFF00) ||| (value % 256)
  { t with periodInitial := periodInitial, periodCurrent := periodInitial }

/-- The $400B arm of `write_register` (src/apu/mod.rs:210-219). -/
def writeTrianglePeriodHigh (t : TriangleChannelState) (value : Nat) : TriangleChannelState :=
  let periodHigh := (value &&& 0b00000111) <<< 8
  let lengthIndex := (value &&& 0b11111000) >>> 3
  let periodInitial := (t.periodInitial &&& 0x00FF) ||| periodHigh
  { t with
    periodInitial := periodInitial
    periodCurrent := periodInitial
    lengthCounter := lengthCounterSetLength t.lengthCounter lengthIndex
    linearReloadFlag := true }

/-- The $400C arm of `write_register` (src/apu/mod.rs:220-228). -/
def writeNoiseCtrl (n : NoiseChannelState) (value : Nat) : NoiseChannelState :=
  let lengthDisable := value &&& 0b00100000 ≠ 0
  let constantVolume := value &&& 0b00010000 ≠ 0
  { n with
    lengthCounter := { n.lengthCounter with haltFlag := lengthDisable }
    envelope :=
      { n.envelope with
        looping := lengthDisable
        enabled := !constantVolume
        volumeRegister := value &&& 0b00001111 } }

/-- The $400E arm of `write_register` (src/apu/mod.rs:229-234). -/
def writeNoisePeriod (n : NoiseChannelState) (value : Nat) : NoiseChannelState :=
  let periodIndex := value &&& 0b00001111
  let period := (noisePeriodTable.get? periodIndex).getD 0
  { n with
    mode := (value &&& 0b10000000) >>> 7
    periodInitial := period
    periodCurrent := period }

/-- The $400F arm of `write_register` (src/apu/mod.rs:235-239). -/
def writeNoiseLength (n : NoiseChannelState) (value : Nat) : NoiseChannelState :=
  let lengthIndex := (value &&& 0b11111000) >>> 3
  { n with
    lengthCounter := lengthCounterSetLength n.lengthCounter lengthIndex
    envelope := { n.envelope with startFlag := true } }

/-- The $4010 arm of `write_register` (src/apu/mod.rs:240-249). -/
def writeDmcCtrl (d : DmcChannelState) (value : Nat) : DmcChannelState :=
  let interruptEnabled := value &&& 0b10000000 ≠ 0
  let periodIndex := value &&& 0b00001111
  let period := (dmcRateTable.get? periodIndex).getD 0
  { d with
    looping := value &&& 0b01000000 ≠ 0
    interruptEnabled := interruptEnabled
    interruptFlag := if !interruptEnabled then false else d.interruptFlag
    periodInitial := period
    periodCurrent := period }

/-- The $4011 arm of `write_register` (src/apu/mod.rs:250-252). -/
def writeDmcLevel (d : DmcChannelState) (value : Nat) : DmcChannelState :=
  { d with outputLevel := value &&& 0b01111111 }

/-- The $4012 arm of `write_register` (src/apu/mod.rs:253-256). -/
def writeDmcAddress (d : DmcChannelState) (value : Nat) : DmcChannelState :=
  let startingAddress := 0xC000 + ((value % 256) <<< 6)
  { d with startingAddress := startingAddress, currentAddress := startingAddress }

/-- The $4013 arm of `write_register` (src/apu/mod.rs:257-259). -/
def writeDmcLength (d : DmcChannelState) (value : Nat) : DmcChannelState :=
  { d with sampleLength := ((value % 256) <<< 4) + 1 }

/-- `APU::write_register` (src/apu/mod.rs:131-262): the $4000-$4013
channel-register decoder.  Registers 0x4009 and 0x400D, and anything
outside the decoded set, fall through unchanged. -/
def apuWriteRegister (s : ApuState) (addr value : Nat) : ApuState :=
  if addr = 0x4000 then { s with pulse1 := writePulseCtrl s.pulse1 value }
  else if addr = 0x4001 then { s with pulse1 := writePulseSweep s.pulse1 value }
  else if addr = 0x4002 then { s with pulse1 := writePulsePeriodLow s.pulse1 value }
  else if addr = 0x4003 then { s with pulse1 := writePulsePeriodHigh s.pulse1 value }
  else if addr = 0x4004 then { s with pulse2 := writePulseCtrl s.pulse2 value }
  else if addr = 0x4005 then { s with pulse2 := writePulseSweep s.pulse2 value }
  else if addr = 0x4006 then { s with pulse2 := writePulsePeriodLow s.pulse2 value }
  else if addr = 0x4007 then { s with pulse2 := writePulsePeriodHigh s.pulse2 value }
  else if addr = 0x4008 then { s with triangle := writeTriangleCtrl s.triangle value }
  else if addr = 0x400A then { s with triangle := writeTrianglePeriodLow s.triangle value }
  else if addr = 0x400B then { s with triangle := writeTrianglePeriodHigh s.triangle value }
  else if addr = 0x400C then { s with noise := writeNoiseCtrl s.noise value }
  else if addr = 0x400E then { s with noise := writeNoisePeriod s.noise value }
  else if addr = 0x400F then { s with noise := writeNoiseLength s.noise value }
  else if addr = 0x4010 then { s with dmc := writeDmcCtrl s.dmc value }
  else if addr = 0x4011 then { s with dmc := writeDmcLevel s.dmc value }
  else if addr = 0x4012 then { s with dmc := writeDmcAddress s.dmc value }
  else if addr = 0x4013 then { s with dmc := writeDmcLength s.dmc value }
  else s

/-- `APU::read_status` (src/apu/mod.rs:294-320): channel-active flags in
bits 0-4, the frame IRQ latch in bit 6, the DMC IRQ flag in bit 7; the
read then clears BOTH the frame-interrupt latch and the DMC interrupt
flag. -/
def apuReadStatus (s : ApuState) : Nat × ApuState :=
  let st := 0
  let st := if s.pulse1.lengthCounter.length > 0 then st ||| 0x01 else st
  let st := if s.pulse2.lengthCounter.length > 0 then st ||| 0x02 else st
  let st := if s.triangle.lengthCounter.length > 0 then st ||| 0x04 else st
  let st := if s.noise.lengthCounter.length > 0 then st ||| 0x08 else st
  let st := if s.dmc.bytesRemaining > 0 then st ||| 0x10 else st
  let st := if s.frameInterrupt then st ||| 0x40 else st
  let st := if s.dmc.interruptFlag then st ||| 0x80 else st
  (st, { s with frameInterrupt := false, dmc := { s.dmc with interruptFlag := false } })

/-- `APU::write_frame_counter` (src/apu/mod.rs:322-333). -/
def apuWriteFrameCounter (s : ApuState) (value : Nat) : ApuState :=
  let s := { s with
    frameSequencerMode := (value &&& 0b10000000) >>> 7
    disableInterrupt := value &&& 0b01000000 ≠ 0
    frameResetDelay := if s.currentCycle &&& 0b1 ≠ 0 then 3 else 4 }
  if s.disableInterrupt then { s with frameInterrupt := false } else s

/-- The fields of `ApuState` that `clock_frame_sequencer` reads or
writes. -/
structure FrameState where
  mode : Nat
  seq : Nat
  delay : Nat
  qctr : Nat
  hctr : Nat
  irq : Bool
  disable : Bool
  deriving DecidableEq, Repr

/-- Project an APU state onto its frame-sequencer fragment. -/
def frameProj (s : ApuState) : FrameState :=
  { mode := s.frameSequencerMode
    seq := s.frameSequencer
    delay := s.frameResetDelay
    qctr := s.quarterFrameCounter
    hctr := s.halfFrameCounter
    irq := s.frameInterrupt
    disable := s.disableInterrupt }

/-- `clock_frame_sequencer` (src/apu/mod.rs:438-498) acting on the
frame-sequencer fragment.  `clock_quarter_frame`/`clock_half_frame`
(src/apu/mod.rs:500-517) mutate only envelope/sweep/linear/length state of
the channels plus the two diagnostic counters; none of that feeds back
into the sequencer, so on this fragment they reduce to the counter
increments. -/
def clockFrameSequencer (s : FrameState) : FrameState :=
  let s :=
    if s.delay > 0 then
      let d := s.delay - 1
      if d = 0 then
        if s.mode = 1 then
          { s with delay := d, seq := 0, qctr := s.qctr + 1, hctr := s.hctr + 1 }
        else
          { s with delay := d, seq := 0 }
      else
        { s with delay := d }
    else s
  let s :=
    if s.mode = 0 then
      if s.seq = 7457 then { s with qctr := s.qctr + 1 }
      else if s.seq = 14913 then { s with qctr := s.qctr + 1, hctr := s.hctr + 1 }
      else if s.seq = 22371 then { s with qctr := s.qctr + 1 }
      else if s.seq = 29828 then (if !s.disable then { s with irq := true } else s)
      else if s.seq = 29829 then
        let s2 := if !s.disable then { s with irq := true } else s
        { s2 with qctr := s2.qctr + 1, hctr := s2.hctr + 1 }
      else if s.seq = 29830 then
        let s2 := if !s.disable then { s with irq := true } else s
        { s2 with seq := 0 }
      else s
    else
      if s.seq = 7457 then { s with qctr := s.qctr + 1 }
      else if s.seq = 14913 then { s with qctr := s.qctr + 1, hctr := s.hctr + 1 }
      else if s.seq = 22371 then { s with qctr := s.qctr + 1 }
      else if s.seq = 37281 then { s with qctr := s.qctr + 1, hctr := s.hctr + 1 }
      else if s.seq = 37282 then { s with seq := 0 }
      else s
  { s with seq := s.seq + 1 }

/-- Iterate the frame sequencer. -/
def frameStepN : Nat → FrameState → FrameState
  | 0, s => s
  | n + 1, s => frameStepN n (clockFrameSequencer s)

/-- Number of deasserted-to-asserted transitions of the frame IRQ line
over `n` sequencer clocks. -/
def irqTransitions : Nat → FrameState → Nat
  | 0, _ => 0
  | n + 1, s =>
    let s2 := clockFrameSequencer s
    (if !s.irq && s2.irq then 1 else 0) + irqTransitions n s2

/-- The frame fragment of `apuNew`. -/
def frameInit : FrameState :=
  { mode := 0, seq := 0, delay := 0, qctr := 0, hctr := 0, irq := false, disable := false }

/-- Quarter-frame count after `k` clocks from `frameInit`. -/
def qcount (k : Nat) : Nat :=
  (if 7457 < k then 1 else 0) + (if 14913 < k then 1 else 0) + (if 22371 < k then 1 else 0)

/-- Half-frame count after `k` clocks from `frameInit`. -/
def hcount (k : Nat) : Nat := if 14913 < k then 1 else 0

/-- The frame-sequencer state after `k` clocks from `frameInit`,
for `k ≤ 29829`. -/
def trajState (k : Nat) : FrameState :=
  { mode := 0, seq := k, delay := 0, qctr := qcount k, hctr := hcount k,
    irq := decide (29829 ≤ k), disable := false }

/-! ## Theorems -/

/-- C1: the spec says a taken branch adds one extra cycle and a taken
branch whose target is on a different page than the address after the
instruction adds one more (two in total).  The code instead adds TWO more
on a page cross (three in total): with carry clear, a BCC whose operand
byte sits at 0x10FE with offset 0x01 branches to 0x1100, crossing the page
of 0x10FF, and accumulates 3 extra cycles; a non-crossing taken branch
accumulates 1 and an untaken branch 0 (those parts of the claim hold).
BNE exhibits the same 3-cycle page-cross penalty. -/
theorem C1_branch_extra_cycles_bug :
    (bcc 0x00 0x10FE 0x01).extraCycles = 3 ∧
    (bcc 0x00 0x1000 0x01).extraCycles = 1 ∧
    (bcc 0x01 0x1000 0x01).extraCycles = 0 ∧
    (bne 0x00 0x10FE 0x01).extraCycles = 3 := by decide

/-- Concrete memory for the BRK evaluation: the IRQ/BRK vector at
0xFFFE-0xFFFF holds 0x1234, everything else is 0. -/
def c2Mem : Nat → Nat :=
  fun a => if a = 0xFFFE then 0x34 else if a = 0xFFFF then 0x12 else 0

/-- CPU state entering the BRK handler: the opcode sits at 0x8000, so PC at
handler entry is 0x8001; SP = 0xFD, status clear (I clear). -/
def c2State : CpuState := { pc := 0x8001, sp := 0xFD, status := 0, mem := c2Mem }

/-- C2: executing BRK at 0x8000 pushes 0x8002 = PC+2 (high byte at 0x01FD,
low at 0x01FC) as the claim says, but the status byte pushed at 0x01FB has
the B flag CLEAR (the `interrupt` routine removes BREAK_COMMAND and never
applies the declared `b_flag_mask` of 0b00110000), contradicting the
claim's B=1. -/
theorem C2_brk_pushes_b_clear :
    (brkExec c2State).mem 0x01FD = 0x80 ∧
    (brkExec c2State).mem 0x01FC = 0x02 ∧
    (brkExec c2State).mem 0x01FB &&& flagBreak = 0 ∧
    (brkExec c2State).mem 0x01FB = flagUnused ∧
    (brkExec c2State).pc = 0x1234 := by decide

set_option maxRecDepth 2000 in
/-- XOR with 0xFF is the 8-bit one's complement. -/
theorem xorFF_eq_sub : ∀ m < 256, m ^^^ 0xFF = 255 - m := by decide

/-- C9: for every accumulator byte, carry flag and operand byte, the SBC
value computation produces exactly the accumulator and C/Z/N/V flags of
the ADC value computation applied to the operand's one's complement. -/
theorem C9_sbc_is_adc_complement (a m : Nat) (ha : a < 256) (hm : m < 256) (c : Bool) :
    sbcValue a c m = adcValue a c (m ^^^ 0xFF) := by
  have hx : m ^^^ 0xFF = 255 - m := xorFF_eq_sub m hm
  have hres : ((((a : Int) - (m : Int) - (if c then (0 : Int) else 1)) % 256).toNat)
      = (a + (m ^^^ 0xFF) + (if c then 1 else 0)) % 256 := by
    rw [hx]
    cases c <;> simp <;> omega
  have hcar : decide ((a : Int) - (m : Int) - (if c then (0 : Int) else 1) ≥ 0)
      = decide (a + (m ^^^ 0xFF) + (if c then 1 else 0) > 0xFF) := by
    rw [hx]
    have h : ((a : Int) - (m : Int) - (if c then (0 : Int) else 1) ≥ 0)
        ↔ (a + (255 - m) + (if c then 1 else 0) > 0xFF) := by
      cases c <;> simp <;> omega
    exact decide_eq_decide.mpr h
  simp only [sbcValue, adcValue]
  rw [hres, hcar]

/-- Witness for C9 at A = 0x40, M = 0x0F, carry set. -/
theorem C9_sbc_is_adc_complement_witness :
    (0x40 : Nat) < 256 ∧ (0x0F : Nat) < 256 ∧
    sbcValue 0x40 true 0x0F = adcValue 0x40 true (0x0F ^^^ 0xFF) :=
  ⟨by decide, by decide, C9_sbc_is_adc_complement 0x40 0x0F (by decide) (by decide) true⟩

/-- A value masked with 0x3FFF is below 2^15. -/
theorem and_3FFF_lt (x : Nat) : x &&& 0x3FFF < 0x8000 :=
  lt_of_le_of_lt Nat.and_le_right (by norm_num)

/-- Bits 12-14 are all set on any value in [0x7000, 0x8000). -/
theorem and_7000_of_ge (v : Nat) (h1 : 0x7000 ≤ v) (h2 : v < 0x8000) :
    v &&& 0x7000 = 0x7000 := by
  have e : (0x7000 : Nat) = 2 ^ 12 ||| (2 ^ 13 ||| 2 ^ 14) := by decide
  have b12 : v.testBit 12 = true := by
    rw [Nat.testBit_to_div_mod]
    simp only [decide_eq_true_eq]
    omega
  have b13 : v.testBit 13 = true := by
    rw [Nat.testBit_to_div_mod]
    simp only [decide_eq_true_eq]
    omega
  have b14 : v.testBit 14 = true := by
    rw [Nat.testBit_to_div_mod]
    simp only [decide_eq_true_eq]
    omega
  rw [e, Nat.and_or_distrib_left, Nat.and_or_distrib_left,
    Nat.and_two_pow, Nat.and_two_pow, Nat.and_two_pow, b12, b13, b14]
  decide

/-- Every single scroll operation keeps `v` and `t` within 15 bits. -/
theorem scrollInv_applyOp (r : ScrollRegister) (op : ScrollOp) (h : ScrollInv r) :
    ScrollInv (applyScrollOp r op) := by
  obtain ⟨hv, ht⟩ := h
  cases op with
  | updateCtrl value =>
      exact ⟨hv, and_3FFF_lt _⟩
  | write value =>
      unfold applyScrollOp scrollWrite
      by_cases hw : r.w <;> simp [hw] <;> exact ⟨hv, and_3FFF_lt _⟩
  | writePpuAddr value =>
      unfold applyScrollOp scrollWritePpuAddr
      by_cases hw : r.w <;> simp [hw]
      · exact ⟨and_3FFF_lt _, and_3FFF_lt _⟩
      · exact ⟨hv, and_3FFF_lt _⟩
  | increment step =>
      exact ⟨and_3FFF_lt _, ht⟩
  | resetLatch =>
      exact ⟨hv, ht⟩
  | incrementX =>
      unfold applyScrollOp scrollIncrementX
      by_cases hc : r.v &&& 0x001F = 31
      · rw [if_pos hc]
        refine ⟨Nat.xor_lt_two_pow (n := 15) ?_ (by norm_num), ht⟩
        exact lt_of_le_of_lt Nat.and_le_left hv
      · rw [if_neg hc]
        have h5 : r.v &&& 0x001F = r.v % 32 := by
          have e : (0x001F : Nat) = 2 ^ 5 - 1 := by norm_num
          rw [e, Nat.and_pow_two_sub_one_eq_mod]
        rw [h5] at hc
        refine ⟨?_, ht⟩
        show r.v + 1 < 0x8000
        omega
  | incrementY =>
      by_cases hc : r.v &&& 0x7000 ≠ 0x7000
      · simp only [applyScrollOp, scrollIncrementY, if_pos hc, ScrollInv]
        refine ⟨?_, ht⟩
        show r.v + 0x1000 < 0x8000
        rcases Nat.lt_or_ge r.v 0x7000 with hlow | hge
        · omega
        · exact absurd (and_7000_of_ge r.v hge hv) hc
      · simp only [applyScrollOp, scrollIncrementY, if_neg hc, ScrollInv]
        refine ⟨?_, ht⟩
        have hv1 : r.v &&& 0x8FFF < 0x8000 := lt_of_le_of_lt Nat.and_le_left hv
        have hx1 : r.v &&& 0x8FFF ^^^ 0x0800 < 0x8000 :=
          Nat.xor_lt_two_pow (n := 15) hv1 (by norm_num)
        have hy : (r.v &&& 0x8FFF &&& 0x03E0) >>> 5 ≤ 31 := by
          have hle : r.v &&& 0x8FFF &&& 0x03E0 ≤ 0x03E0 := Nat.and_le_right
          calc (r.v &&& 0x8FFF &&& 0x03E0) >>> 5
              = (r.v &&& 0x8FFF &&& 0x03E0) / 32 := by
                simp [Nat.shiftRight_eq_div_pow]
            _ ≤ 0x03E0 / 32 := Nat.div_le_div_right hle
            _ = 31 := by norm_num
        have h2 : ∀ Y : Nat × Nat, Y.1 ≤ 32 → Y.2 < 0x8000 →
            (Y.2 &&& 0xFC1F) ||| (Y.1 <<< 5) < 0x8000 := by
          intro Y h1 hY2
          refine Nat.or_lt_two_pow (n := 15) (lt_of_le_of_lt Nat.and_le_left hY2) ?_
          have e : Y.1 <<< 5 = Y.1 * 32 := by simp [Nat.shiftLeft_eq]
          omega
        apply h2
        · split_ifs <;> simp <;> omega
        · split_ifs <;> simp <;> first | exact hx1 | exact hv1
  | copyHorizontalBits =>
      refine ⟨Nat.or_lt_two_pow (n := 15) ?_ ?_, ht⟩
      · exact lt_of_le_of_lt Nat.and_le_left hv
      · exact lt_of_le_of_lt Nat.and_le_left ht
  | copyVerticalBits =>
      refine ⟨Nat.or_lt_two_pow (n := 15) ?_ ?_, ht⟩
      · exact lt_of_le_of_lt Nat.and_le_left hv
      · exact lt_of_le_of_lt Nat.and_le_left ht

/-- C7: for every scroll-register state whose `v` and `t` fit in 15 bits,
they still fit in 15 bits after any sequence of PPUCTRL updates, $2005
writes, $2006 writes, VRAM-address increments and the rendering
increment/copy operations. -/
theorem C7_scroll_registers_15_bits (ops : List ScrollOp) (r : ScrollRegister)
    (h : ScrollInv r) : ScrollInv (applyScrollOps r ops) := by
  induction ops generalizing r with
  | nil => exact h
  | cons op rest ih => exact ih (applyScrollOp r op) (scrollInv_applyOp r op h)

/-- Witness for C7: the freshly constructed scroll register stays within
15 bits across a concrete write/increment sequence. -/
theorem C7_scroll_registers_15_bits_witness :
    ScrollInv scrollNew ∧
    ScrollInv (applyScrollOps scrollNew
      [ScrollOp.updateCtrl 0x93, ScrollOp.write 0xFF, ScrollOp.write 0xFF,
       ScrollOp.writePpuAddr 0x3F, ScrollOp.writePpuAddr 0xFF,
       ScrollOp.increment 32, ScrollOp.incrementX, ScrollOp.incrementY,
       ScrollOp.copyHorizontalBits, ScrollOp.copyVerticalBits]) :=
  ⟨by decide,
   C7_scroll_registers_15_bits _ scrollNew (by decide)⟩

/-- PPU state with sprite 0 at (0,0), sprite rendering enabled and
background rendering DISABLED, at the start of scanline 0. -/
def c3State : PpuState :=
  { ctrl := 0
    maskShowSprites := true
    maskShowBackground := false
    statusVblank := false
    statusSpriteZero := false
    scroll := scrollNew
    oam0 := 0
    oam3 := 0
    nmi := none
    scanline := 0
    cycles := 0 }

/-- C3 counterexample: with background rendering disabled (so no opaque
background pixel can exist and the claim requires the flag to stay
clear), ticking through scanline 0 still sets the sprite-0-hit flag,
because `is_sprite_zero_hit` only checks sprite-0 Y, X and the sprite
enable bit. -/
theorem C3_sprite_zero_hit_counterexample :
    ((ppuTick c3State 341).1).statusSpriteZero = true ∧
    c3State.maskShowBackground = false := by decide

/-- C3 amended: the sprite-0-hit flag is set at the end of a scanline
(when the dot counter reaches 341) exactly when sprite 0's Y byte equals
the current scanline, its X byte is at most the accumulated dot count,
and sprite rendering is enabled — with no check of pixel opacity,
background enable, left-edge clipping or x=255; entering scanline 241 or
wrapping the frame clears the flag, and a tick that does not finish the
scanline leaves it unchanged. -/
theorem C3_sprite_zero_hit_amended (s : PpuState) (n : Nat) :
    ((ppuTick s n).1).statusSpriteZero =
      (if s.cycles + n ≥ 341 then
        if s.scanline + 1 = 241 ∨ s.scanline + 1 ≥ 262 then false
        else s.statusSpriteZero || isSpriteZeroHit s (s.cycles + n)
      else s.statusSpriteZero) := by
  simp only [ppuTick]
  split_ifs <;> simp_all <;> omega

/-- PPU state in vblank with the NMI-enable bit clear and no pending
NMI. -/
def c10State : PpuState :=
  { ctrl := 0
    maskShowSprites := false
    maskShowBackground := false
    statusVblank := true
    statusSpriteZero := false
    scroll := scrollNew
    oam0 := 0
    oam3 := 0
    nmi := none
    scanline := 241
    cycles := 0 }

/-- C10: writing a PPUCTRL value whose NMI-enable bit is set, while the
vblank flag is set and the bit was previously clear, immediately latches
a pending NMI which the next `poll_nmi_interrupt` returns; when the
vblank flag is clear, or the bit was already set, or the written value
leaves it clear, the write does not change the pending-NMI latch. -/
theorem C10_ctrl_write_nmi_latch (s : PpuState) (value : Nat) :
    (ctrlGenerateVblankNmi s.ctrl = false →
      ctrlGenerateVblankNmi (value % 256) = true →
      s.statusVblank = true →
      (writeToCtrl s value).nmi = some 1 ∧
      (pollNmiInterrupt (writeToCtrl s value)).1 = some 1) ∧
    ((ctrlGenerateVblankNmi s.ctrl = true ∨
      ctrlGenerateVblankNmi (value % 256) = false ∨
      s.statusVblank = false) →
      (writeToCtrl s value).nmi = s.nmi) := by
  constructor
  · intro h1 h2 h3
    simp [writeToCtrl, pollNmiInterrupt, h1, h2, h3]
  · intro h
    rcases h with h | h | h <;> simp [writeToCtrl, h]

/-- Witness for C10: from `c10State` (vblank set, NMI-enable clear),
writing 0x80 latches an NMI; writing 0x00 leaves the latch empty. -/
theorem C10_ctrl_write_nmi_latch_witness :
    (writeToCtrl c10State 0x80).nmi = some 1 ∧
    (writeToCtrl c10State 0x00).nmi = c10State.nmi :=
  ⟨((C10_ctrl_write_nmi_latch c10State 0x80).1 (by decide) (by decide) (by decide)).1,
   (C10_ctrl_write_nmi_latch c10State 0x00).2 (Or.inr (Or.inl (by decide)))⟩

/-- A well-formed 16-byte iNES image (header only, zero PRG/CHR pages)
whose mapper number is 5: byte 6 = 0x50 puts 5 in the low nibble of the
mapper number, byte 7 = 0 keeps iNES version 0. -/
def mapper5Image : List Nat :=
  [0x4E, 0x45, 0x53, 0x1A, 0, 0, 0x50, 0, 0, 0, 0, 0, 0, 0, 0, 0]

/-- C4 counterexample: `Cart::new` REJECTS a well-formed image with mapper
number 5 instead of selecting MMC5 — the loader's match covers only
mappers 0-4. -/
theorem C4_mapper5_counterexample :
    cartNew mapper5Image = Except.error "Mapper 5 not supported" := by rfl

/-- C4 amended: for every image whose header carries the iNES signature,
encodes mapper number 5 and passes the version check (NES 2.0 bits set or
iNES version 0), `Cart::new` returns the error "Mapper 5 not supported";
the loader selects only mappers 0 (NROM), 1 (MMC1), 2 (UxROM), 3 (CNROM)
and 4 (MMC3), and the MMC5 implementation in src/mapper/mmc5.rs is never
chosen. -/
theorem C4_mapper5_amended (raw : List Nat)
    (htag : raw.take 4 = nesTag)
    (hmap : (((raw.get? 7).getD 0) &&& 0xF0) ||| (((raw.get? 6).getD 0) >>> 4) = 5)
    (hver : ((raw.get? 7).getD 0) &&& 0x0C = 0x08 ∨
            (((raw.get? 7).getD 0) >>> 2) &&& 0b11 = 0) :
    cartNew raw = Except.error "Mapper 5 not supported" := by
  simp only [cartNew]
  rw [if_neg (by simp [htag])]
  have hfmt : ¬ ((if ((raw.get? 7).getD 0) &&& 0x0C = 0x08 then RomFormat.nes2
      else RomFormat.iNes) = RomFormat.iNes ∧ (((raw.get? 7).getD 0) >>> 2) &&& 0b11 ≠ 0) := by
    rcases hver with h | h
    · rw [if_pos h]
      rintro ⟨hfe, -⟩
      exact RomFormat.noConfusion hfe
    · rintro ⟨-, hne⟩
      exact hne h
  rw [if_neg hfmt]
  rw [hmap]
  norm_num
  rfl

/-- Witness for C4 amended at the concrete mapper-5 image. -/
theorem C4_mapper5_amended_witness :
    mapper5Image.take 4 = nesTag ∧
    cartNew mapper5Image = Except.error "Mapper 5 not supported" :=
  ⟨by decide,
   C4_mapper5_amended mapper5Image (by decide) (by decide) (Or.inr (by decide))⟩

/-- APU state with a latched DMC interrupt, a latched frame interrupt and
an active pulse-1 length counter. -/
def c5State : ApuState :=
  { apuNew with
    frameInterrupt := true
    pulse1 := { pulseChannelNew with
      lengthCounter := { lengthCounterNew with length := 3 } }
    dmc := { dmcChannelNew with interruptFlag := true, bytesRemaining := 1 } }

/-- C5 counterexample: a $4015 read clears the DMC IRQ flag (the claim
says the read leaves it unchanged): from a state with the DMC IRQ flag
latched, the flag is false after the read. -/
theorem C5_read_status_counterexample :
    c5State.dmc.interruptFlag = true ∧
    ((apuReadStatus c5State).2).dmc.interruptFlag = false := by decide

/-- C5 amended: a $4015 read returns the five channel-active flags in bits
0-4, the frame-counter IRQ latch as bit 6 and the DMC IRQ flag as bit 7,
and clears BOTH the frame-counter IRQ latch and the DMC IRQ flag, leaving
every other field of the APU state unchanged. -/
theorem C5_read_status_amended (s : ApuState) :
    (apuReadStatus s).1 =
      ((if s.pulse1.lengthCounter.length > 0 then 0x01 else 0) |||
       (if s.pulse2.lengthCounter.length > 0 then 0x02 else 0) |||
       (if s.triangle.lengthCounter.length > 0 then 0x04 else 0) |||
       (if s.noise.lengthCounter.length > 0 then 0x08 else 0) |||
       (if s.dmc.bytesRemaining > 0 then 0x10 else 0) |||
       (if s.frameInterrupt then 0x40 else 0) |||
       (if s.dmc.interruptFlag then 0x80 else 0)) ∧
    (apuReadStatus s).2 =
      { s with frameInterrupt := false, dmc := { s.dmc with interruptFlag := false } } := by
  have hstep : ∀ (c : Prop) [inst : Decidable c] (st k : Nat),
      (if c then st ||| k else st) = st ||| (if c then k else 0) := by
    intro c inst st k
    split_ifs <;> simp
  constructor
  · simp only [apuReadStatus, hstep, Nat.zero_or]
  · rfl

/-- Channel-register writes do not touch the frame-sequencer fragment. -/
theorem writeRegister_frameProj (s : ApuState) (addr value : Nat) :
    frameProj (apuWriteRegister s addr value) = frameProj s := by
  simp only [apuWriteRegister]
  by_cases h1 : addr = 0x4000
  · rw [if_pos h1]; rfl
  rw [if_neg h1]
  by_cases h2 : addr = 0x4001
  · rw [if_pos h2]; rfl
  rw [if_neg h2]
  by_cases h3 : addr = 0x4002
  · rw [if_pos h3]; rfl
  rw [if_neg h3]
  by_cases h4 : addr = 0x4003
  · rw [if_pos h4]; rfl
  rw [if_neg h4]
  by_cases h5 : addr = 0x4004
  · rw [if_pos h5]; rfl
  rw [if_neg h5]
  by_cases h6 : addr = 0x4005
  · rw [if_pos h6]; rfl
  rw [if_neg h6]
  by_cases h7 : addr = 0x4006
  · rw [if_pos h7]; rfl
  rw [if_neg h7]
  by_cases h8 : addr = 0x4007
  · rw [if_pos h8]; rfl
  rw [if_neg h8]
  by_cases h9 : addr = 0x4008
  · rw [if_pos h9]; rfl
  rw [if_neg h9]
  by_cases h10 : addr = 0x400A
  · rw [if_pos h10]; rfl
  rw [if_neg h10]
  by_cases h11 : addr = 0x400B
  · rw [if_pos h11]; rfl
  rw [if_neg h11]
  by_cases h12 : addr = 0x400C
  · rw [if_pos h12]; rfl
  rw [if_neg h12]
  by_cases h13 : addr = 0x400E
  · rw [if_pos h13]; rfl
  rw [if_neg h13]
  by_cases h14 : addr = 0x400F
  · rw [if_pos h14]; rfl
  rw [if_neg h14]
  by_cases h15 : addr = 0x4010
  · rw [if_pos h15]; rfl
  rw [if_neg h15]
  by_cases h16 : addr = 0x4011
  · rw [if_pos h16]; rfl
  rw [if_neg h16]
  by_cases h17 : addr = 0x4012
  · rw [if_pos h17]; rfl
  rw [if_neg h17]
  by_cases h18 : addr = 0x4013
  · rw [if_pos h18]; rfl
  rw [if_neg h18]

/-- A whole sequence of channel-register writes leaves the
frame-sequencer fragment unchanged. -/
theorem foldWrites_frameProj (ws : List (Nat × Nat)) (s : ApuState) :
    frameProj (ws.foldl (fun t w => apuWriteRegister t w.1 w.2) s) = frameProj s := by
  induction ws generalizing s with
  | nil => rfl
  | cons w rest ih =>
      rw [List.foldl_cons, ih, writeRegister_frameProj]

/-- Iterating the sequencer one extra step from the back. -/
theorem frameStepN_succ' (n : Nat) (s : FrameState) :
    frameStepN (n + 1) s = clockFrameSequencer (frameStepN n s) := by
  induction n generalizing s with
  | zero => rfl
  | succ m ih => rw [frameStepN, ih, frameStepN]

/-- Transition counts over a split window add up. -/
theorem irqTransitions_add (a b : Nat) (s : FrameState) :
    irqTransitions (a + b) s = irqTransitions a s + irqTransitions b (frameStepN a s) := by
  induction a generalizing s with
  | zero => simp [irqTransitions, frameStepN]
  | succ m ih =>
      have h : m + 1 + b = (m + b) + 1 := by omega
      rw [h, irqTransitions, irqTransitions, ih, frameStepN]
      simp [Nat.add_assoc]

/-- One sequencer clock advances the trajectory state. -/
theorem clock_trajState (k : Nat) (hk : k ≤ 29828) :
    clockFrameSequencer (trajState k) = trajState (k + 1) := by
  by_cases h1 : k = 7457
  · subst h1; decide
  by_cases h2 : k = 14913
  · subst h2; decide
  by_cases h3 : k = 22371
  · subst h3; decide
  by_cases h4 : k = 29828
  · subst h4; decide
  simp only [clockFrameSequencer, trajState]
  simp only [gt_iff_lt, lt_self_iff_false, if_false, reduceIte]
  rw [if_neg h1, if_neg h2, if_neg h3, if_neg h4]
  rw [if_neg (by omega : ¬ k = 29829), if_neg (by omega : ¬ k = 29830)]
  simp only [FrameState.mk.injEq]
  refine ⟨trivial, trivial, trivial, ?_, ?_, ?_, trivial⟩
  · simp only [qcount]
    split_ifs <;> omega
  · simp only [hcount]
    split_ifs <;> omega
  · exact decide_eq_decide.mpr (by omega)

/-- The sequencer state after `k ≤ 29829` clocks from the initial state. -/
theorem frameStepN_trajState (k : Nat) (hk : k ≤ 29829) :
    frameStepN k frameInit = trajState k := by
  induction k with
  | zero => decide
  | succ m ih =>
      rw [frameStepN_succ', ih (by omega), clock_trajState m (by omega)]

/-- No IRQ transition occurs in a window that ends by clock 29828. -/
theorem irqTransitions_traj_zero (n : Nat) :
    ∀ k, k + n ≤ 29828 → irqTransitions n (trajState k) = 0 := by
  induction n with
  | zero => intro k _; rfl
  | succ m ih =>
      intro k hk
      rw [irqTransitions]
      rw [clock_trajState k (by omega)]
      have h2 : (trajState (k + 1)).irq = false := by
        simp only [trajState]
        exact decide_eq_false (by omega)
      simp only [h2, Bool.and_false, Bool.false_eq_true, if_false, Nat.zero_add]
      exact ih (k + 1) (by omega)

/-- From the initial sequencer state, the frame IRQ line goes from
deasserted to asserted exactly once in 29830 clocks. -/
theorem irqTransitions_init_once : irqTransitions 29830 frameInit = 1 := by
  have h0 : frameInit = trajState 0 := by decide
  have hadd := irqTransitions_add 29828 2 frameInit
  norm_num at hadd
  rw [hadd, frameStepN_trajState 29828 (by omega), h0,
    irqTransitions_traj_zero 29828 0 (by omega)]
  decide

/-- C6: after any sequence of APU channel-register writes ($4000-$4013)
from the initial APU state, the frame sequencer is still in 4-step mode
with IRQs enabled, and over the following 29830 CPU cycles of frame
sequencer clocking the frame-counter IRQ line transitions from deasserted
to asserted exactly once (at sequencer step 29828). -/
theorem C6_frame_irq_asserts_once (ws : List (Nat × Nat))
    (hws : ∀ w ∈ ws, 0x4000 ≤ w.1 ∧ w.1 ≤ 0x4013) :
    (ws.foldl (fun t w => apuWriteRegister t w.1 w.2) apuNew).frameSequencerMode = 0 ∧
    (ws.foldl (fun t w => apuWriteRegister t w.1 w.2) apuNew).disableInterrupt = false ∧
    irqTransitions 29830
      (frameProj (ws.foldl (fun t w => apuWriteRegister t w.1 w.2) apuNew)) = 1 := by
  have h : frameProj (ws.foldl (fun t w => apuWriteRegister t w.1 w.2) apuNew) = frameInit :=
    (foldWrites_frameProj ws apuNew).trans rfl
  refine ⟨?_, ?_, ?_⟩
  · exact congrArg FrameState.mode h
  · exact congrArg FrameState.disable h
  · rw [h]
    exact irqTransitions_init_once

/-- Witness for C6 with a single pulse-channel write. -/
theorem C6_frame_irq_asserts_once_witness :
    (∀ w ∈ [((0x4000 : Nat), (0xBF : Nat))], 0x4000 ≤ w.1 ∧ w.1 ≤ 0x4013) ∧
    irqTransitions 29830
      (frameProj ([((0x4000 : Nat), (0xBF : Nat))].foldl
        (fun t w => apuWriteRegister t w.1 w.2) apuNew)) = 1 :=
  ⟨by decide,
   (C6_frame_irq_asserts_once [((0x4000 : Nat), (0xBF : Nat))] (by decide)).2.2⟩

/-- NROM mapper loaded with a malformed single-byte PRG ROM. -/
def c8Nrom : NromMapper := nromNew [0x42] [] Mirroring.horizontal

/-- C8 counterexample: NROM's `read_prg` indexes `prg_rom[offset]` without
any modular reduction when the PRG size is neither 16 KiB nor at least
32 KiB — with a 1-byte PRG ROM, reading 0x8001 indexes out of bounds (a
Rust panic, modelled as `none`). -/
theorem C8_nrom_out_of_bounds : nromReadPrg c8Nrom 0x8001 = none := by rfl

/-- Lookup at an index reduced modulo the length of a nonempty list never
fails. -/
theorem get?_mod_ne_none (l : List Nat) (h : l ≠ []) (x : Nat) :
    l.get? (x % l.length) ≠ none := by
  intro hc
  rw [List.get?_eq_none] at hc
  have hpos : 0 < l.length := List.length_pos.mpr h
  have := Nat.mod_lt x hpos
  omega

/-- Lookup below the length never fails. -/
theorem get?_lt_ne_none (l : List Nat) (x : Nat) (h : x < l.length) :
    l.get? x ≠ none := by
  intro hc
  rw [List.get?_eq_none] at hc
  omega

/-- A `Bool` if-condition that failed gives a `= false` equation. -/
theorem not_isEmpty_ne_nil {l : List Nat} (h : ¬ l.isEmpty = true) : l ≠ [] := by
  simpa using h

/-- The UxROM work RAM keeps its 8 KiB size. -/
def UxromInv (m : UxromMapper) : Prop := m.prgRam.length = 0x2000

/-- A freshly constructed UxROM mapper satisfies the invariant. -/
theorem uxromNew_inv (prg chr : List Nat) (mir : Mirroring) :
    UxromInv (uxromNew prg chr mir) := by
  show (List.replicate 0x2000 (0 : Nat)).length = 0x2000
  rw [List.length_replicate]

/-- Under the invariant, UxROM reads never index out of bounds. -/
theorem uxromRead_safe (m : UxromMapper) (hm : UxromInv m) (addr : Nat) :
    uxromReadPrg m addr ≠ none ∧ uxromReadChr m addr ≠ none := by
  constructor
  · unfold uxromReadPrg
    split_ifs with h1 h2 h3 h4 h5
    · exact get?_lt_ne_none _ _ (by rw [hm]; omega)
    · simp
    · exact get?_mod_ne_none _ (not_isEmpty_ne_nil h3) _
    · simp
    · exact get?_mod_ne_none _ (not_isEmpty_ne_nil h5) _
    · simp
  · unfold uxromReadChr
    split_ifs with h1
    · simp
    · exact get?_mod_ne_none _ (not_isEmpty_ne_nil h1) _

/-- UxROM writes always succeed and preserve the invariant. -/
theorem uxromWrite_inv (m : UxromMapper) (w : MapWrite) (hm : UxromInv m) :
    ∃ m2, uxromApplyWrite m w = some m2 ∧ UxromInv m2 := by
  cases w with
  | prg addr data =>
      simp only [uxromApplyWrite]
      unfold uxromWritePrg
      split_ifs with h1 h2 h3
      · exact ⟨_, rfl, by simpa [UxromInv] using hm⟩
      · exact absurd (by rw [hm]; omega : addr - 0x6000 < m.prgRam.length) h2
      · exact ⟨_, rfl, hm⟩
      · exact ⟨_, rfl, hm⟩
  | chr addr data =>
      simp only [uxromApplyWrite]
      unfold uxromWriteChr
      split_ifs with h1 h2
      · exact ⟨_, rfl, hm⟩
      · have hne : m.chr ≠ [] := by
          intro hc
          simp [hc] at h1
        exact absurd (Nat.mod_lt addr (List.length_pos.mpr hne)) h2
      · exact ⟨_, rfl, hm⟩

/-- The CNROM work RAM keeps its 8 KiB size. -/
def CnromInv (m : CnromMapper) : Prop := m.prgRam.length = 0x2000

/-- A freshly constructed CNROM mapper satisfies the invariant. -/
theorem cnromNew_inv (prg chr : List Nat) (mir : Mirroring) :
    CnromInv (cnromNew prg chr mir) := by
  show (List.replicate 0x2000 (0 : Nat)).length = 0x2000
  rw [List.length_replicate]

/-- Under the invariant, CNROM reads never index out of bounds. -/
theorem cnromRead_safe (m : CnromMapper) (hm : CnromInv m) (addr : Nat) :
    cnromReadPrg m addr ≠ none ∧ cnromReadChr m addr ≠ none := by
  constructor
  · unfold cnromReadPrg
    split_ifs with h1 h2 h3
    · exact get?_lt_ne_none _ _ (by rw [hm]; omega)
    · simp
    · exact get?_mod_ne_none _ (not_isEmpty_ne_nil h3) _
    · simp
  · unfold cnromReadChr
    split_ifs with h1
    · simp
    · exact get?_mod_ne_none _ (not_isEmpty_ne_nil h1) _

/-- CNROM writes always succeed and preserve the invariant. -/
theorem cnromWrite_inv (m : CnromMapper) (w : MapWrite) (hm : CnromInv m) :
    ∃ m2, cnromApplyWrite m w = some m2 ∧ CnromInv m2 := by
  cases w with
  | prg addr data =>
      simp only [cnromApplyWrite]
      unfold cnromWritePrg
      split_ifs with h1 h2 h3
      · exact ⟨_, rfl, by simpa [CnromInv] using hm⟩
      · exact absurd (by rw [hm]; omega : addr - 0x6000 < m.prgRam.length) h2
      · exact ⟨_, rfl, hm⟩
      · exact ⟨_, rfl, hm⟩
  | chr addr data =>
      simp only [cnromApplyWrite]
      unfold cnromWriteChr
      by_cases h1 : m.chrIsRam && !m.chr.isEmpty
      · rw [if_pos h1]
        have hne : m.chr ≠ [] := by
          intro hc
          simp [hc] at h1
        have hpos : 0 < m.chr.length := List.length_pos.mpr hne
        exact ⟨_, if_pos (Nat.mod_lt _ hpos), by simpa [CnromInv] using hm⟩
      · rw [if_neg h1]
        exact ⟨_, rfl, hm⟩

/-- The MMC3 work RAM keeps its 8 KiB size. -/
def Mmc3Inv (m : Mmc3Mapper) : Prop := m.prgRam.length = 0x2000

/-- `set_prg_page` does not touch the work RAM. -/
theorem mmc3SetPrgPage_prgRam (m : Mmc3Mapper) (slot : Fin 4) (b : Nat) :
    (mmc3SetPrgPage m slot b).prgRam = m.prgRam := by
  unfold mmc3SetPrgPage
  split_ifs <;> rfl

/-- `set_chr_pair` does not touch the work RAM. -/
theorem mmc3SetChrPair_prgRam (m : Mmc3Mapper) (s0 s1 : Fin 8) (v : Nat) :
    (mmc3SetChrPair m s0 s1 v).prgRam = m.prgRam := by
  unfold mmc3SetChrPair
  split_ifs <;> rfl

/-- `set_chr_single` does not touch the work RAM. -/
theorem mmc3SetChrSingle_prgRam (m : Mmc3Mapper) (s0 : Fin 8) (v : Nat) :
    (mmc3SetChrSingle m s0 v).prgRam = m.prgRam := by
  unfold mmc3SetChrSingle
  split_ifs <;> rfl

/-- `write_bank_select` does not touch the work RAM. -/
theorem mmc3WriteBankSelect_prgRam (m : Mmc3Mapper) (d : Nat) :
    (mmc3WriteBankSelect m d).prgRam = m.prgRam := by
  simp only [mmc3WriteBankSelect]
  split_ifs <;> rfl

/-- `update_prg_bank` does not touch the work RAM. -/
theorem mmc3UpdatePrgBank_prgRam (m : Mmc3Mapper) (t b : Nat) :
    (mmc3UpdatePrgBank m t b).prgRam = m.prgRam := by
  cases hmode : m.prgMode <;> simp only [mmc3UpdatePrgBank, hmode] <;> split_ifs <;>
    first
    | rfl
    | apply mmc3SetPrgPage_prgRam

/-- `update_chr_bank` does not touch the work RAM. -/
theorem mmc3UpdateChrBank_prgRam (m : Mmc3Mapper) (t b : Nat) :
    (mmc3UpdateChrBank m t b).prgRam = m.prgRam := by
  cases hmode : m.chrMode <;> simp only [mmc3UpdateChrBank, hmode] <;> split_ifs <;>
    first
    | rfl
    | apply mmc3SetChrPair_prgRam
    | apply mmc3SetChrSingle_prgRam

/-- `write_bank_data` does not touch the work RAM. -/
theorem mmc3WriteBankData_prgRam (m : Mmc3Mapper) (d : Nat) :
    (mmc3WriteBankData m d).prgRam = m.prgRam := by
  simp only [mmc3WriteBankData]
  split_ifs <;>
    first
    | rfl
    | apply mmc3UpdateChrBank_prgRam
    | apply mmc3UpdatePrgBank_prgRam

/-- `init_prg_banks` does not touch the work RAM. -/
theorem mmc3InitPrgBanks_prgRam (m : Mmc3Mapper) :
    (mmc3InitPrgBanks m).prgRam = m.prgRam := by
  simp only [mmc3InitPrgBanks]
  split_ifs <;> simp only [mmc3SetPrgPage_prgRam]

/-- `init_chr_banks` does not touch the work RAM. -/
theorem mmc3InitChrBanks_prgRam (m : Mmc3Mapper) :
    (mmc3InitChrBanks m).prgRam = m.prgRam := by
  simp only [mmc3InitChrBanks]
  split_ifs <;> simp only [mmc3SetChrSingle_prgRam]

/-- The PRG index MMC3 resolves is always inside the PRG ROM. -/
theorem mmc3PrgAddr_lt (m : Mmc3Mapper) (addr i : Nat)
    (h : mmc3PrgAddr m addr = some i) : i < m.prgRom.length := by
  unfold mmc3PrgAddr at h
  by_cases he : m.prgRom.isEmpty
  · rw [if_pos he] at h
    exact absurd h (by simp)
  rw [if_neg he] at h
  have hpos : 0 < m.prgRom.length := List.length_pos.mpr (not_isEmpty_ne_nil he)
  by_cases r1 : 0x8000 ≤ addr ∧ addr ≤ 0x9FFF
  · simp only [if_pos r1] at h
    obtain rfl := Option.some.inj h
    exact Nat.mod_lt _ hpos
  simp only [if_neg r1] at h
  by_cases r2 : 0xA000 ≤ addr ∧ addr ≤ 0xBFFF
  · simp only [if_pos r2] at h
    obtain rfl := Option.some.inj h
    exact Nat.mod_lt _ hpos
  simp only [if_neg r2] at h
  by_cases r3 : 0xC000 ≤ addr ∧ addr ≤ 0xDFFF
  · simp only [if_pos r3] at h
    obtain rfl := Option.some.inj h
    exact Nat.mod_lt _ hpos
  simp only [if_neg r3] at h
  by_cases r4 : 0xE000 ≤ addr ∧ addr ≤ 0xFFFF
  · simp only [if_pos r4] at h
    obtain rfl := Option.some.inj h
    exact Nat.mod_lt _ hpos
  simp only [if_neg r4] at h
  exact absurd h (by simp)

/-- The CHR index MMC3 resolves is inside the CHR array when it is
nonempty. -/
theorem mmc3ChrAddr_lt (m : Mmc3Mapper) (addr : Nat) (h : ¬ m.chr.isEmpty = true) :
    mmc3ChrAddr m addr < m.chr.length := by
  unfold mmc3ChrAddr
  rw [if_neg h]
  exact Nat.mod_lt _ (List.length_pos.mpr (not_isEmpty_ne_nil h))

/-- Under the invariant, MMC3 reads never index out of bounds. -/
theorem mmc3Read_safe (m : Mmc3Mapper) (hm : Mmc3Inv m) (addr : Nat) :
    mmc3ReadPrg m addr ≠ none ∧ mmc3ReadChr m addr ≠ none := by
  constructor
  · unfold mmc3ReadPrg
    split_ifs with h1 h2 h3
    · exact get?_lt_ne_none _ _ (by rw [hm]; omega)
    · simp
    · cases hp : mmc3PrgAddr m addr with
      | none => simp
      | some i =>
          exact get?_lt_ne_none _ _ (mmc3PrgAddr_lt m addr i hp)
    · simp
  · unfold mmc3ReadChr
    split_ifs with h1
    · simp
    · exact get?_lt_ne_none _ _ (mmc3ChrAddr_lt m addr h1)

/-- MMC3 writes always succeed and preserve the invariant. -/
theorem mmc3Write_inv (m : Mmc3Mapper) (w : MapWrite) (hm : Mmc3Inv m) :
    ∃ m2, mmc3ApplyWrite m w = some m2 ∧ Mmc3Inv m2 := by
  cases w with
  | prg addr data =>
      simp only [mmc3ApplyWrite]
      unfold mmc3WritePrg
      split_ifs with h1 h2 h3 h4 h5 h6 h7 h8 h9 h10 h11
      · exact ⟨_, rfl, by simpa [Mmc3Inv] using hm⟩
      · exact absurd (by rw [hm]; omega : addr - 0x6000 < m.prgRam.length) h3
      · exact ⟨_, rfl, hm⟩
      · refine ⟨_, rfl, ?_⟩
        show (mmc3WriteBankSelect m data).prgRam.length = 0x2000
        rw [mmc3WriteBankSelect_prgRam]
        exact hm
      · refine ⟨_, rfl, ?_⟩
        show (mmc3WriteBankData m data).prgRam.length = 0x2000
        rw [mmc3WriteBankData_prgRam]
        exact hm
      · refine ⟨_, rfl, ?_⟩
        show (mmc3UpdateMirroring m data).prgRam.length = 0x2000
        unfold mmc3UpdateMirroring
        split_ifs <;> exact hm
      · exact ⟨_, rfl, hm⟩
      · exact ⟨_, rfl, hm⟩
      · exact ⟨_, rfl, hm⟩
      · exact ⟨_, rfl, hm⟩
      · exact ⟨_, rfl, hm⟩
      · exact ⟨_, rfl, hm⟩
  | chr addr data =>
      simp only [mmc3ApplyWrite]
      unfold mmc3WriteChr
      by_cases h1 : m.chrIsRam && !m.chr.isEmpty
      · rw [if_pos h1]
        have hne : ¬ m.chr.isEmpty = true := by
          intro hc
          simp [hc] at h1
        exact ⟨_, if_pos (mmc3ChrAddr_lt m addr hne), by simpa [Mmc3Inv] using hm⟩
      · rw [if_neg h1]
        exact ⟨_, rfl, hm⟩

/-- Write sequences propagate a per-step invariant. -/
theorem applyWrites_inv {α : Type} (step : α → MapWrite → Option α) (Inv : α → Prop)
    (hstep : ∀ m w, Inv m → ∃ m2, step m w = some m2 ∧ Inv m2) :
    ∀ (ws : List MapWrite) (m : α), Inv m →
      ∃ m2, applyWrites step m ws = some m2 ∧ Inv m2 := by
  intro ws
  induction ws with
  | nil => exact fun m hm => ⟨m, rfl, hm⟩
  | cons w rest ih =>
      intro m hm
      obtain ⟨m2, hw, hm2⟩ := hstep m w hm
      obtain ⟨m3, hws, hm3⟩ := ih m2 hm2
      exact ⟨m3, by simp [applyWrites, hw, hws], hm3⟩

/-- C8 amended: for the UxROM, CNROM and MMC3 mappers, every sequence of
`write_prg`/`write_chr` calls from a freshly loaded mapper (with PRG/CHR
data of ANY size, malformed included) completes without panicking, and
afterwards `read_prg`/`read_chr` return a byte at every address without
indexing out of bounds, because bank indices are reduced modulo the bank
count or array length.  (MMC1's reads and writes are total by
construction: the source guards every access with `.get(..)` or an
explicit bounds check, which the embedding mirrors by total functions.
NROM, by contrast, is the counterexample to the original claim.) -/
theorem C8_mapper_reads_safe :
    (∀ (prg chr : List Nat) (mir : Mirroring) (ws : List MapWrite),
      ∃ m2, applyWrites uxromApplyWrite (uxromNew prg chr mir) ws = some m2 ∧
        ∀ addr, uxromReadPrg m2 addr ≠ none ∧ uxromReadChr m2 addr ≠ none) ∧
    (∀ (prg chr : List Nat) (mir : Mirroring) (ws : List MapWrite),
      ∃ m2, applyWrites cnromApplyWrite (cnromNew prg chr mir) ws = some m2 ∧
        ∀ addr, cnromReadPrg m2 addr ≠ none ∧ cnromReadChr m2 addr ≠ none) ∧
    (∀ (prg chr : List Nat) (mir : Mirroring) (ws : List MapWrite),
      ∃ m2, applyWrites mmc3ApplyWrite (mmc3New prg chr mir) ws = some m2 ∧
        ∀ addr, mmc3ReadPrg m2 addr ≠ none ∧ mmc3ReadChr m2 addr ≠ none) := by
  refine ⟨?_, ?_, ?_⟩
  · intro prg chr mir ws
    obtain ⟨m2, hws, hm2⟩ :=
      applyWrites_inv uxromApplyWrite UxromInv uxromWrite_inv ws _ (uxromNew_inv prg chr mir)
    exact ⟨m2, hws, fun addr => uxromRead_safe m2 hm2 addr⟩
  · intro prg chr mir ws
    obtain ⟨m2, hws, hm2⟩ :=
      applyWrites_inv cnromApplyWrite CnromInv cnromWrite_inv ws _ (cnromNew_inv prg chr mir)
    exact ⟨m2, hws, fun addr => cnromRead_safe m2 hm2 addr⟩
  · intro prg chr mir ws
    have hinv : Mmc3Inv (mmc3New prg chr mir) := by
      show (mmc3New prg chr mir).prgRam.length = 0x2000
      simp only [mmc3New, mmc3InitChrBanks_prgRam, mmc3InitPrgBanks_prgRam]
      rw [List.length_replicate]
    obtain ⟨m2, hws, hm2⟩ :=
      applyWrites_inv mmc3ApplyWrite Mmc3Inv mmc3Write_inv ws _ hinv
    exact ⟨m2, hws, fun addr => mmc3Read_safe m2 hm2 addr⟩

end PicoNES
